import Mathlib

/-!
Verification of the probabilistic analysis core and backtest engine of the
forex-signal repository.

The Python source is shallowly embedded:
  * money/price arithmetic is embedded over `ℚ` (Python floats carry rational
    values; exact rational arithmetic realizes the intended real semantics),
  * the softmax / logarithm / square-root parts of the probability and
    correlation pipelines are embedded over `ℝ`,
  * pandas DataFrames become lists of bars ordered oldest to newest
    (`iloc[-1]` is the last element), Python dicts become association lists
    in insertion order.

Sources embedded here:
  * `analysis/aggregation.py`  (MarketSentimentAggregator)
  * `analysis/probability.py`  (ProbabilityWeights, ProbabilityModel)
  * `analysis/correlation.py`  (CorrelationAnalyzer.build_correlation_matrix)
  * `analysis/volatility.py`   (VolatilityAnalyzer.analyze)
  * `analysis/analyzer_v2.py`  (ProbabilisticAnalyzer)
  * `backtest/engine.py`       (Trade, BacktestEngine)
-/

namespace ForexSignal

/-! ### Association lists (Python `dict` with insertion order) -/

/-- Lookup of the first binding of a key, mirroring `d[k]` / `k in d`. -/
def alookup {β : Type} : List (String × β) → String → Option β
  | [], _ => none
  | (k, v) :: rest, key => if k = key then some v else alookup rest key

/-- Removal of the binding of a key, mirroring `del d[k]`. -/
def aerase {β : Type} : List (String × β) → String → List (String × β)
  | [], _ => []
  | (k, v) :: rest, key => if k = key then rest else (k, v) :: aerase rest key

/-- Update-or-append of a binding, mirroring `d[k] = v` (a fresh key goes to
the end, matching Python dict insertion order). -/
def aset {β : Type} : List (String × β) → String → β → List (String × β)
  | [], key, v => [(key, v)]
  | (k, w) :: rest, key, v =>
    if k = key then (k, v) :: rest else (k, w) :: aset rest key v

/-! ### OHLCV bars and frames -/

/-- One OHLCV bar.  Timestamps are integers (hours); prices and volume are
exact rationals. -/
structure Bar where
  time : ℤ
  op : ℚ
  high : ℚ
  low : ℚ
  close : ℚ
  volume : ℚ
  deriving Repr, DecidableEq

/-- A pandas OHLCV DataFrame: bars ordered oldest to newest.  `hasVolume`
records whether the optional `volume` column is present (when it is absent
the per-bar `volume` payload is never read). -/
structure Df where
  bars : List Bar
  hasVolume : Bool
  deriving Repr, DecidableEq

/-- Market data keyed by symbol (`dict[str, pd.DataFrame]`). -/
abbrev MarketData := List (String × Df)

/-! ### Shared enumerations -/

/-- Direction classification of `probability.py`. -/
inductive Direction where
  | UPWARD
  | DOWNWARD
  | CONSOLIDATION
  deriving Repr, DecidableEq

/-- Risk sentiment classification of `aggregation.py`. -/
inductive RiskSentiment where
  | RISK_ON
  | RISK_OFF
  | NEUTRAL
  deriving Repr, DecidableEq

/-- Global volatility regime of `aggregation.py`. -/
inductive VolatilityRegimeGlobal where
  | LOW
  | NORMAL
  | ELEVATED
  | CRISIS
  deriving Repr, DecidableEq

/-- Per-instrument volatility regime of `volatility.py`. -/
inductive VolatilityRegime where
  | LOW
  | NORMAL
  | HIGH
  | EXTREME
  deriving Repr, DecidableEq

/-! ### Market sentiment aggregation (`analysis/aggregation.py`) -/

/-- Risk asset indicators (dataclass `RiskIndicators`). -/
structure RiskIndicators where
  btc_roc_24h : ℚ := 0
  eth_roc_24h : ℚ := 0
  crypto_avg_roc : ℚ := 0
  risk_score : ℚ := 0
  deriving Repr, DecidableEq

/-- Safe haven indicators (dataclass `SafeHavenIndicators`). -/
structure SafeHavenIndicators where
  gold_roc_24h : ℚ := 0
  jpy_strength : ℚ := 0
  chf_strength : ℚ := 0
  safe_haven_score : ℚ := 0
  deriving Repr, DecidableEq

/-- Global volatility indicators (dataclass `GlobalVolatilityIndicators`). -/
structure GlobalVolatilityIndicators where
  forex_avg_atr_pct : ℚ := 0
  crypto_avg_atr_pct : ℚ := 0
  cross_market_atr_pct : ℚ := 0
  volatility_expansion : Bool := false
  regime : VolatilityRegimeGlobal := VolatilityRegimeGlobal.NORMAL
  deriving Repr, DecidableEq

/-- Class constant `MarketSentimentAggregator.RISK_THRESHOLD`. -/
def RISK_THRESHOLD : ℚ := 3/10

/-- Class constant `MarketSentimentAggregator.SAFE_HAVEN_THRESHOLD`. -/
def SAFE_HAVEN_THRESHOLD : ℚ := 3/10

/-- `MarketSentimentAggregator._classify_sentiment`: classify the overall
market sentiment from the three indicator groups, returning
`(sentiment, confidence, dominant_factor)`. -/
def classifySentiment (risk : RiskIndicators) (safeHaven : SafeHavenIndicators)
    (volatility : GlobalVolatilityIndicators) : RiskSentiment × ℚ × String :=
  let netScore := risk.risk_score - safeHaven.safe_haven_score
  -- Crisis volatility overrides everything.
  if volatility.regime = VolatilityRegimeGlobal.CRISIS then
    (RiskSentiment.NEUTRAL, 2/5, "crisis_volatility")
  else
    let base : RiskSentiment × ℚ × String :=
      if RISK_THRESHOLD < netScore then
        (RiskSentiment.RISK_ON, min 1 (1/2 + |netScore|),
          if 3/10 < risk.risk_score then "crypto_strength" else "risk_appetite")
      else if netScore < -SAFE_HAVEN_THRESHOLD ∨
          SAFE_HAVEN_THRESHOLD < safeHaven.safe_haven_score then
        (RiskSentiment.RISK_OFF, min 1 (1/2 + max |netScore| safeHaven.safe_haven_score),
          if 1 < safeHaven.gold_roc_24h then "gold_demand"
          else if 3/10 < safeHaven.jpy_strength then "jpy_strength"
          else if 3/10 < safeHaven.chf_strength then "chf_strength"
          else "safe_haven_demand")
      else
        (RiskSentiment.NEUTRAL, 1/2 - |netScore|, "balanced_market")
    -- Elevated volatility reduces confidence.
    if volatility.regime = VolatilityRegimeGlobal.ELEVATED then
      (base.1, base.2.1 * (85/100), base.2.2 ++ "_elevated_vol")
    else base

/-- Aggregated market sentiment snapshot (dataclass `MarketSentiment`).
The `timestamp`, `summary` and `raw_scores` diagnostics are carried but
never read by the embedded consumers. -/
structure MarketSentiment where
  timestamp : ℤ
  risk_sentiment : RiskSentiment
  risk_indicators : RiskIndicators
  safe_haven_indicators : SafeHavenIndicators
  volatility_indicators : GlobalVolatilityIndicators
  confidence : ℚ
  dominant_factor : String
  summary : String
  deriving Repr, DecidableEq

/-! ### Probability model weights (`analysis/probability.py`) -/

/-- Factor weights (dataclass `ProbabilityWeights`, before `__post_init__`). -/
structure ProbabilityWeights where
  roc : ℚ := 1/4
  volatility : ℚ := 1/4
  volume : ℚ := 1/4
  correlation : ℚ := 1/4
  deriving Repr, DecidableEq

/-- Raw sum of the four weights. -/
def ProbabilityWeights.total (w : ProbabilityWeights) : ℚ :=
  w.roc + w.volatility + w.volume + w.correlation

/-- `ProbabilityWeights.__post_init__`: when the weights deviate from unit sum
by more than `0.01` each weight is divided by the raw sum (for a zero raw sum
Python raises `ZeroDivisionError`; Lean division by zero yields zero weights). -/
def ProbabilityWeights.postInit (w : ProbabilityWeights) : ProbabilityWeights :=
  if 1/100 < |w.total - 1| then
    { roc := w.roc / w.total, volatility := w.volatility / w.total,
      volume := w.volume / w.total, correlation := w.correlation / w.total }
  else w

/-! ### Shared indicator calculations (ROC, ATR, volume ratio) -/

/-- Arithmetic mean of a list of rationals (`Series.mean()`). -/
def listMeanQ (xs : List ℚ) : ℚ := xs.sum / (xs.length : ℚ)

/-- Latest close (`df["close"].iloc[-1]`). -/
def lastClose (bars : List Bar) : Option ℚ := bars.getLast?.map (·.close)

/-- `_calculate_roc`: percentage rate of change of the close over `lookback`
bars; unavailable on short history or a non-positive reference price. -/
def calcRoc (lookback : ℕ) (bars : List Bar) : Option ℚ :=
  if bars.length < lookback + 1 then none
  else
    match bars.getLast?, bars[bars.length - 1 - lookback]? with
    | some cur, some past =>
      if past.close ≤ 0 then none
      else some ((cur.close - past.close) / past.close * 100)
    | _, _ => none

/-- Tail of the true-range series: each bar's TR against the previous close. -/
def trueRangeAux : Bar → List Bar → List ℚ
  | _, [] => []
  | prev, b :: rest =>
    max (b.high - b.low) (max |b.high - prev.close| |b.low - prev.close|) ::
      trueRangeAux b rest

/-- True-range series of a bar list.  The first bar has no previous close
(`close.shift(1)` is NaN there) and pandas `max(axis=1)` skips NaN, so its
true range degenerates to `high - low`. -/
def trueRangeList : List Bar → List ℚ
  | [] => []
  | b :: rest => (b.high - b.low) :: trueRangeAux b rest

/-- `calculate_atr`: simple moving average of true range over `period` bars
(the last value of `true_range.rolling(period).mean()`), requiring
`period + 1` bars of history. -/
def calcAtr (period : ℕ) (bars : List Bar) : Option ℚ :=
  if bars.length < period + 1 then none
  else
    let tr := trueRangeList bars
    some (listMeanQ (tr.drop (tr.length - period)))

/-- `_calculate_atr_percent`: ATR as a percentage of the latest close. -/
def calcAtrPercent (period : ℕ) (bars : List Bar) : Option ℚ :=
  match calcAtr period bars, lastClose bars with
  | some atr, some current =>
    if current ≤ 0 then none else some (atr / current * 100)
  | _, _ => none

/-- `_calculate_volume_ratio`: latest volume divided by its mean over the
last `lookback` bars; unavailable without a volume column, on short history,
or a non-positive moving-average volume. -/
def calcVolumeRatio (lookback : ℕ) (df : Df) : Option ℚ :=
  if !df.hasVolume then none
  else if df.bars.length < lookback then none
  else
    match df.bars.getLast? with
    | none => none
    | some last =>
      let maVol := listMeanQ ((df.bars.drop (df.bars.length - lookback)).map (·.volume))
      if maVol ≤ 0 then none else some (last.volume / maVol)

/-! ### Probability model (`analysis/probability.py`) -/

/-- Factor values used by the probability model (the `factors` dict). -/
structure Factors where
  roc : ℝ
  volatility : ℝ
  volume : ℝ
  correlation : ℝ

/-- Raw per-direction scores before softmax. -/
structure Scores where
  up : ℝ
  down : ℝ
  cons : ℝ

/-- Direction probabilities (the `probabilities` dict, declared in the fixed
order UPWARD, DOWNWARD, CONSOLIDATION). -/
structure Probs where
  up : ℝ
  down : ℝ
  cons : ℝ

/-- `_calculate_factors`: each undefined factor falls back to its neutral
constant (0.0 for ROC, 1.0 for volatility and volume).  The correlation
factor reproduces the Python truthiness test
`avg_correlation if avg_correlation else 0.5`: both `None` and `0.0` fall
back to the neutral `0.5`. -/
noncomputable def calculateFactors (lookback atrPeriod : ℕ) (df : Df)
    (avgCorrelation : Option ℝ) : Factors where
  roc := (((calcRoc lookback df.bars).getD 0 : ℚ) : ℝ)
  volatility := (((calcAtrPercent atrPeriod df.bars).getD 1 : ℚ) : ℝ)
  volume := (((calcVolumeRatio lookback df).getD 1 : ℚ) : ℝ)
  correlation :=
    match avgCorrelation with
    | some c => if c = 0 then 1/2 else c
    | none => 1/2

/-- `_calculate_raw_scores`: weighted combination of the factors into a raw
score per direction. -/
noncomputable def rawScores (w : ProbabilityWeights) (f : Factors) : Scores :=
  let rocUp := max f.roc 0 / 10
  let rocDown := max (-f.roc) 0 / 10
  let volatilityConsol := max 0 (2 - f.volatility) / 2
  let volumeFactor := min f.volume 2 / 2
  let corrPenalty := f.correlation * (1/2)
  { up := (w.roc : ℝ) * rocUp + (w.volatility : ℝ) * (f.volatility / 3)
      + (w.volume : ℝ) * volumeFactor * (if 0 < f.roc then 1 else 1/2)
      - (w.correlation : ℝ) * corrPenalty
    down := (w.roc : ℝ) * rocDown + (w.volatility : ℝ) * (f.volatility / 3)
      + (w.volume : ℝ) * volumeFactor * (if f.roc < 0 then 1 else 1/2)
      - (w.correlation : ℝ) * corrPenalty
    cons := (w.roc : ℝ) * (1 - |f.roc| / 10) + (w.volatility : ℝ) * volatilityConsol
      + (w.volume : ℝ) * (1 - volumeFactor) + (w.correlation : ℝ) * corrPenalty }

/-- `_softmax`: exponential normalization with max-subtraction for numerical
stability. -/
noncomputable def softmax (s : Scores) : Probs :=
  let m := max s.up (max s.down s.cons)
  let eu := Real.exp (s.up - m)
  let ed := Real.exp (s.down - m)
  let ec := Real.exp (s.cons - m)
  let total := eu + ed + ec
  { up := eu / total, down := ed / total, cons := ec / total }

/-- `_classify_direction`: `max(probabilities, key=...)` scans the dict in
declared order UPWARD, DOWNWARD, CONSOLIDATION and replaces the best only on
a strict improvement, so the earliest direction wins ties. -/
noncomputable def classifyDirection (p : Probs) : Direction :=
  if p.up < p.down then
    if p.down < p.cons then Direction.CONSOLIDATION else Direction.DOWNWARD
  else
    if p.up < p.cons then Direction.CONSOLIDATION else Direction.UPWARD

/-- Largest of the three probabilities (`sorted(..., reverse=True)[0]`). -/
noncomputable def sortedTop1 (p : Probs) : ℝ := max p.up (max p.down p.cons)

/-- Second largest of the three probabilities (`sorted(...)[1]`). -/
noncomputable def sortedTop2 (p : Probs) : ℝ :=
  max (min p.up p.down) (min (max p.up p.down) p.cons)

/-- `_calculate_confidence`: margin between the top-1 and top-2 probability. -/
noncomputable def confidenceOf (p : Probs) : ℝ := sortedTop1 p - sortedTop2 p

/-- `_is_actionable`: confident enough and not a consolidation call. -/
noncomputable def isActionable (highThreshold : ℚ) (dir : Direction) (conf : ℝ) : Bool :=
  if (highThreshold : ℝ) ≤ conf ∧ dir ≠ Direction.CONSOLIDATION then true else false

/-- String value of a `RiskSentiment` member (`sentiment.risk_sentiment.value`). -/
def RiskSentiment.toValue : RiskSentiment → String
  | RiskSentiment.RISK_ON => "risk_on"
  | RiskSentiment.RISK_OFF => "risk_off"
  | RiskSentiment.NEUTRAL => "neutral"

/-- Char-list version of `str.startswith`. -/
def startsWithChars : List Char → List Char → Bool
  | _, [] => true
  | [], _ :: _ => false
  | a :: hay, b :: nee => a = b && startsWithChars hay nee

/-- Char-list version of the Python substring test `needle in haystack`. -/
def containsChars : List Char → List Char → Bool
  | [], nee => nee.isEmpty
  | a :: hay, nee => startsWithChars (a :: hay) nee || containsChars hay nee

/-- Risk-asset classification by symbol substring match. -/
def isRiskAssetSymbol (symbol : String) : Bool :=
  ["EUR", "GBP", "AUD", "NZD", "BTC", "ETH", "SOL"].any
    (fun x => containsChars symbol.toUpper.toList x.toList)

/-- Safe-haven classification by symbol substring match. -/
def isSafeHavenSymbol (symbol : String) : Bool :=
  ["JPY", "CHF", "GC=F", "GOLD"].any
    (fun x => containsChars symbol.toUpper.toList x.toList)

/-- Sentiment/asset-class modifier table of `_apply_market_context`, with the
attached reasoning string. -/
def contextModifier (symbol : String) (s : MarketSentiment) : ℚ × String :=
  let isRisk := isRiskAssetSymbol symbol
  let isSafe := isSafeHavenSymbol symbol
  if s.risk_sentiment = RiskSentiment.RISK_ON then
    if isRisk then (11/10, "risk-on supports this risk asset")
    else if isSafe then (19/20, "risk-on reduces safe haven demand")
    else (1, "neutral market")
  else if s.risk_sentiment = RiskSentiment.RISK_OFF then
    if isRisk then (9/10, "risk-off pressures this risk asset")
    else if isSafe then (11/10, "risk-off supports safe haven flow")
    else (1, "neutral market")
  else (1, "neutral market")

/-- Market context adjustment record (dataclass `MarketContextModifier`). -/
structure MarketContextModifier where
  sentiment : String
  modifier : ℚ
  adjusted_confidence : ℝ
  reasoning : String

/-- `_apply_market_context`: crisis regime adds a flat 0.15 to consolidation;
a modifier above 1 multiplies the upward probability, a modifier below 1
multiplies the downward probability by `2 - modifier`; the result is
renormalized whenever its total is positive. -/
noncomputable def applyMarketContext (p : Probs) (symbol : String)
    (s : MarketSentiment) : Probs × MarketContextModifier :=
  let mr := contextModifier symbol s
  let modifier := mr.1
  let crisis := s.volatility_indicators.regime = VolatilityRegimeGlobal.CRISIS
  let reasoning := if crisis then mr.2 ++ " | high volatility favors consolidation" else mr.2
  let cons1 : ℝ := p.cons + (if crisis then 3/20 else 0)
  let up1 : ℝ := if 1 < modifier then p.up * (modifier : ℝ) else p.up
  let down1 : ℝ := if modifier < 1 then p.down * (((2 - modifier : ℚ)) : ℝ) else p.down
  let total := up1 + down1 + cons1
  let adjusted : Probs :=
    if 0 < total then ⟨up1 / total, down1 / total, cons1 / total⟩
    else ⟨up1, down1, cons1⟩
  let adjustedConfidence := (sortedTop1 adjusted - sortedTop2 adjusted) * (s.confidence : ℝ)
  (adjusted,
    { sentiment := s.risk_sentiment.toValue, modifier := modifier,
      adjusted_confidence := adjustedConfidence, reasoning := reasoning })

/-- Result of probability analysis (dataclass `ProbabilityResult`). -/
structure ProbabilityResult where
  symbol : String
  direction : Direction
  probabilities : Probs
  confidence : ℝ
  is_actionable : Bool
  factors : Factors
  market_context : Option MarketContextModifier

/-- Configuration of `ProbabilityModel.__init__` (defaults from the source). -/
structure ProbabilityModelConfig where
  weights : ProbabilityWeights := {}
  lookback_periods : ℕ := 24
  confidence_threshold : ℚ := 2/5
  high_confidence_threshold : ℚ := 3/5
  atr_period : ℕ := 14

/-- Body of `ProbabilityModel.predict` once the history requirement holds:
factors, raw scores, softmax, direction/confidence/actionability, and the
optional market-context adjustment (after which direction, confidence and
actionability are recomputed). -/
noncomputable def predictCore (cfg : ProbabilityModelConfig) (df : Df) (symbol : String)
    (avgCorrelation : Option ℝ) (sentiment : Option MarketSentiment) : ProbabilityResult :=
  let factors := calculateFactors cfg.lookback_periods cfg.atr_period df avgCorrelation
  let probs0 := softmax (rawScores cfg.weights factors)
  match sentiment with
  | none =>
    let dir := classifyDirection probs0
    let conf := confidenceOf probs0
    { symbol := symbol, direction := dir, probabilities := probs0, confidence := conf,
      is_actionable := isActionable cfg.high_confidence_threshold dir conf,
      factors := factors, market_context := none }
  | some s =>
    let pm := applyMarketContext probs0 symbol s
    let dir := classifyDirection pm.1
    let conf := confidenceOf pm.1
    { symbol := symbol, direction := dir, probabilities := pm.1, confidence := conf,
      is_actionable := isActionable cfg.high_confidence_threshold dir conf,
      factors := factors, market_context := some pm.2 }

/-- `ProbabilityModel.predict`: `None` without `lookback + 1` bars of history
(the empty-frame test is subsumed), otherwise the full prediction.  The
factor-calculation failure path of the source is exception handling that the
embedding cannot reach. -/
noncomputable def predict (cfg : ProbabilityModelConfig) (df : Df) (symbol : String)
    (avgCorrelation : Option ℝ) (sentiment : Option MarketSentiment) :
    Option ProbabilityResult :=
  if df.bars.length < cfg.lookback_periods + 1 then none
  else some (predictCore cfg df symbol avgCorrelation sentiment)

/-! ### Volatility analyzer (`analysis/volatility.py`) -/

/-- Result of volatility analysis (dataclass `VolatilityResult`). -/
structure VolatilityResult where
  symbol : String
  atr : ℚ
  atr_percent : ℚ
  regime : VolatilityRegime
  is_consolidation : Bool
  current_price : ℚ
  deriving Repr, DecidableEq

/-- Regime thresholds (`DEFAULT_REGIME_THRESHOLDS`). -/
structure RegimeThresholds where
  low : ℚ := 1/2
  normal : ℚ := 1
  high : ℚ := 2
  deriving Repr, DecidableEq

/-- Configuration of `VolatilityAnalyzer.__init__`. -/
structure VolatilityAnalyzerConfig where
  atr_period : ℕ := 14
  consolidation_threshold : ℚ := 1/100
  regime_thresholds : RegimeThresholds := {}
  deriving Repr, DecidableEq

/-- `_classify_regime`: bucket the ATR% against the threshold boundaries. -/
def classifyRegime (th : RegimeThresholds) (atrPct : ℚ) : VolatilityRegime :=
  if atrPct < th.low then VolatilityRegime.LOW
  else if atrPct < th.normal then VolatilityRegime.NORMAL
  else if atrPct < th.high then VolatilityRegime.HIGH
  else VolatilityRegime.EXTREME

/-- `VolatilityAnalyzer.analyze`: ATR, ATR%, regime and consolidation flag;
`None` on an empty frame, short history, or a non-positive latest close (the
missing-column test of the source always passes, `Bar` carries all fields). -/
def volAnalyze (cfg : VolatilityAnalyzerConfig) (df : Df) (symbol : String) :
    Option VolatilityResult :=
  if df.bars.isEmpty then none
  else if df.bars.length < cfg.atr_period + 1 then none
  else
    match calcAtr cfg.atr_period df.bars, lastClose df.bars with
    | some atr, some current =>
      if current ≤ 0 then none
      else
        let atrPct := atr / current * 100
        some { symbol := symbol, atr := atr, atr_percent := atrPct,
               regime := classifyRegime cfg.regime_thresholds atrPct,
               is_consolidation := decide (atrPct / 100 < cfg.consolidation_threshold),
               current_price := current }
    | _, _ => none

/-! ### Correlation analyzer (`analysis/correlation.py`) -/

/-- Configuration of `CorrelationAnalyzer.__init__`. -/
structure CorrelationConfig where
  lookback_hours : ℤ := 24
  min_data_points : ℕ := 20
  high_correlation_threshold : ℚ := 7/10
  deriving Repr, DecidableEq

/-- `_filter_to_lookback`: keep the bars within `lookback_hours` of the
frame's latest timestamp. -/
def filterToLookback (lookbackHours : ℤ) (bars : List Bar) : List Bar :=
  match (bars.map (·.time)).max? with
  | none => bars
  | some latest => bars.filter (fun b => latest - lookbackHours ≤ b.time)

/-- Tail of the log-return series, each return indexed by its bar's time. -/
noncomputable def logReturnsAux : Bar → List Bar → List (ℤ × ℝ)
  | _, [] => []
  | prev, b :: rest =>
    (b.time, Real.log ((b.close : ℝ) / (prev.close : ℝ))) :: logReturnsAux b rest

/-- Log-returns `ln(close_t / close_{t-1})` of a bar list; the first bar has
no predecessor and is dropped (`.dropna()`). -/
noncomputable def logReturns : List Bar → List (ℤ × ℝ)
  | [] => []
  | b :: rest => logReturnsAux b rest

/-- Per-symbol selection stage of `build_correlation_matrix`: skip empty
frames, restrict to the lookback window, require `min_data_points` bars and
`min_data_points - 1` returns.  (The close-column test of the source always
passes in the embedding.) -/
noncomputable def selectReturns (cfg : CorrelationConfig) (priceData : MarketData) :
    List (String × List (ℤ × ℝ)) :=
  priceData.filterMap (fun p =>
    if p.2.bars.isEmpty then none
    else
      let fb := filterToLookback cfg.lookback_hours p.2.bars
      if fb.length < cfg.min_data_points then none
      else
        let rets := logReturns fb
        if rets.length < cfg.min_data_points - 1 then none
        else some (p.1, rets))

/-- Value of a time-indexed return series at a timestamp. -/
def tlookup : List (ℤ × ℝ) → ℤ → Option ℝ
  | [], _ => none
  | (t, v) :: rest, key => if t = key then some v else tlookup rest key

/-- Timestamps present in every selected return series
(`pd.DataFrame(log_returns).dropna()` keeps exactly the rows where every
column has a value). -/
noncomputable def alignedTimes : List (String × List (ℤ × ℝ)) → List ℤ
  | [] => []
  | (_, r0) :: rest =>
    (r0.map Prod.fst).filter (fun t => rest.all (fun p => (p.2.map Prod.fst).contains t))

/-- Every selected series restricted to the common timestamps. -/
noncomputable def alignedSeries (sel : List (String × List (ℤ × ℝ))) :
    List (String × List ℝ) :=
  let ts := alignedTimes sel
  sel.map (fun p => (p.1, ts.filterMap (tlookup p.2)))

/-- Mean of a list of reals (`Series.mean()`). -/
noncomputable def listMeanR (xs : List ℝ) : ℝ := xs.sum / (xs.length : ℝ)

/-- Sum of products of deviations from the means,
`Σ (x_i - mean xs) * (y_i - mean ys)`. -/
noncomputable def demeanDot (xs ys : List ℝ) : ℝ :=
  ((xs.zip ys).map (fun q => (q.1 - listMeanR xs) * (q.2 - listMeanR ys))).sum

/-- Pearson correlation coefficient as computed by `DataFrame.corr`:
covariance over the square root of the product of variances (the shared
`1/(n-1)` factors cancel).  Where pandas produces NaN (a zero-variance
column), Lean's division-by-zero convention yields `0` — in both semantics
the value is not a genuine unit correlation. -/
noncomputable def pearson (xs ys : List ℝ) : ℝ :=
  demeanDot xs ys / Real.sqrt (demeanDot xs xs * demeanDot ys ys)

/-- A built correlation matrix: the retained symbols with their aligned
return series; every matrix entry is the pairwise Pearson correlation of two
stored columns.  The empty list is the empty matrix. -/
abbrev CorrMatrix := List (String × List ℝ)

/-- `CorrelationAnalyzer.build_correlation_matrix`: select and align the
return series, abort to an empty matrix with fewer than two surviving
symbols or fewer than `min_data_points - 1` aligned rows. -/
noncomputable def buildCorrelationMatrix (cfg : CorrelationConfig)
    (priceData : MarketData) : CorrMatrix :=
  let sel := selectReturns cfg priceData
  if sel.length < 2 then []
  else if (alignedTimes sel).length < cfg.min_data_points - 1 then []
  else alignedSeries sel

/-- Entry lookup in a built matrix (`matrix.loc[a, b]`). -/
noncomputable def matrixEntry (m : CorrMatrix) (a b : String) : ℝ :=
  match alookup m a, alookup m b with
  | some xs, some ys => pearson xs ys
  | _, _ => 0

/-- `get_average_correlation`: mean absolute correlation of a symbol against
every other symbol in the matrix, `None` when the matrix is empty, the
symbol is absent, or no other symbol remains. -/
noncomputable def getAverageCorrelation (m : CorrMatrix) (symbol : String) : Option ℝ :=
  if m.isEmpty then none
  else
    match alookup m symbol with
    | none => none
    | some xs =>
      let others := m.filter (fun p => p.1 ≠ symbol)
      if others.isEmpty then none
      else some (listMeanR (others.map (fun p => |pearson xs p.2|)))

/-! ### Probabilistic analyzer orchestration (`analysis/analyzer_v2.py`) -/

/-- Event kinds (`EventType`). -/
inductive EventType where
  | PROBABILITY_SIGNAL
  | VOLATILITY_ALERT
  deriving Repr, DecidableEq

/-- Event payload (the `data` dict).  The source also rounds the numeric
values for display (`round(x, 4)`); that float formatting step is not
modeled, the unrounded values are carried. -/
inductive EventData where
  | probability (direction : Direction) (confidence : ℝ) (is_actionable : Bool)
      (market : Option (String × ℚ × String))
  | volatility (regime : VolatilityRegime) (atr : ℚ) (atr_percent : ℚ)
      (current_price : ℚ) (is_consolidation : Bool)

/-- Analyzer event (dataclass `AnalysisEvent`; the wall-clock timestamp is
not modeled). -/
structure AnalysisEvent where
  event_type : EventType
  symbol : String
  timeframe : String
  importance : ℕ
  data : EventData

/-- Class constant `ProbabilisticAnalyzer.CONFIDENCE_THRESHOLD`. -/
def CONFIDENCE_THRESHOLD : ℚ := 2/5

/-- Class constant `ProbabilisticAnalyzer.HIGH_CONFIDENCE_THRESHOLD`. -/
def HIGH_CONFIDENCE_THRESHOLD : ℚ := 3/5

/-- `_generate_probability_events`: no event below the confidence threshold,
otherwise one probability-signal event whose importance is 2 at or above the
high-confidence threshold and 1 below it. -/
noncomputable def generateProbabilityEvents (r : ProbabilityResult)
    (timeframe : String) : List AnalysisEvent :=
  if r.confidence < (CONFIDENCE_THRESHOLD : ℝ) then []
  else
    let importance : ℕ := if (HIGH_CONFIDENCE_THRESHOLD : ℝ) ≤ r.confidence then 2 else 1
    [{ event_type := EventType.PROBABILITY_SIGNAL, symbol := r.symbol,
       timeframe := timeframe, importance := importance,
       data := EventData.probability r.direction r.confidence r.is_actionable
         (r.market_context.map (fun mc => (mc.sentiment, mc.modifier, mc.reasoning))) }]

/-- `_generate_volatility_events`: one alert for a HIGH or EXTREME regime,
importance 2 only when EXTREME. -/
def generateVolatilityEvents (v : VolatilityResult) (timeframe : String) :
    List AnalysisEvent :=
  if v.regime = VolatilityRegime.HIGH ∨ v.regime = VolatilityRegime.EXTREME then
    [{ event_type := EventType.VOLATILITY_ALERT, symbol := v.symbol,
       timeframe := timeframe,
       importance := if v.regime = VolatilityRegime.EXTREME then 2 else 1,
       data := EventData.volatility v.regime v.atr v.atr_percent v.current_price
         v.is_consolidation }]
  else []

/-- Complete analysis result for one symbol (dataclass `AnalysisResult`). -/
structure AnalysisResult where
  symbol : String
  timeframe : String
  probability : Option ProbabilityResult
  volatility : Option VolatilityResult
  events : List AnalysisEvent
  market_sentiment : Option MarketSentiment

/-- Configuration of `ProbabilisticAnalyzer.__init__`. -/
structure ProbabilisticAnalyzerConfig where
  correlation_lookback_hours : ℤ := 24
  correlation_min_points : ℕ := 20
  high_correlation_threshold : ℚ := 7/10
  atr_period : ℕ := 14
  consolidation_threshold : ℚ := 1/100
  probability_weights : ProbabilityWeights := {}

/-- The volatility analyzer the orchestrator constructs. -/
def ProbabilisticAnalyzerConfig.volCfg (c : ProbabilisticAnalyzerConfig) :
    VolatilityAnalyzerConfig :=
  { atr_period := c.atr_period, consolidation_threshold := c.consolidation_threshold }

/-- The probability model the orchestrator constructs: only the weights and
`lookback_periods=24` are passed, every other model parameter keeps its own
default (in particular the model's ATR period stays 14). -/
def ProbabilisticAnalyzerConfig.probCfg (c : ProbabilisticAnalyzerConfig) :
    ProbabilityModelConfig :=
  { weights := c.probability_weights, lookback_periods := 24 }

/-- The correlation analyzer the orchestrator constructs. -/
def ProbabilisticAnalyzerConfig.corrCfg (c : ProbabilisticAnalyzerConfig) :
    CorrelationConfig :=
  { lookback_hours := c.correlation_lookback_hours,
    min_data_points := c.correlation_min_points,
    high_correlation_threshold := c.high_correlation_threshold }

/-- `ProbabilisticAnalyzer.analyze`: volatility analysis, probability
prediction with the internally looked-up average correlation and the
optional sentiment, and the emitted events.  The held correlation matrix is
passed explicitly (spec §9 reimplements the hidden mutable matrix state as
an explicit owned value). -/
noncomputable def analyze (acfg : ProbabilisticAnalyzerConfig) (matrix : CorrMatrix)
    (df : Df) (symbol timeframe : String)
    (marketSentiment : Option MarketSentiment) : AnalysisResult :=
  let volatilityResult := volAnalyze acfg.volCfg df symbol
  let avgCorrelation := getAverageCorrelation matrix symbol
  let probabilityResult := predict acfg.probCfg df symbol avgCorrelation marketSentiment
  let probEvents :=
    match probabilityResult with
    | some r => generateProbabilityEvents r timeframe
    | none => []
  let volEvents :=
    match volatilityResult with
    | some v => generateVolatilityEvents v timeframe
    | none => []
  { symbol := symbol, timeframe := timeframe, probability := probabilityResult,
    volatility := volatilityResult, events := probEvents ++ volEvents,
    market_sentiment := marketSentiment }

/-- `ProbabilisticAnalyzer.analyze_batch`: apply `analyze` to every symbol.
The call site passes no `market_sentiment` argument, so the parameter takes
its `None` default for every symbol. -/
noncomputable def analyzeBatch (acfg : ProbabilisticAnalyzerConfig) (matrix : CorrMatrix)
    (data : MarketData) (timeframe : String) : List (String × AnalysisResult) :=
  data.map (fun p => (p.1, analyze acfg matrix p.2 p.1 timeframe none))

/-! ### Backtest engine (`backtest/engine.py`) -/

/-- Trade lifecycle status (`TradeStatus`). -/
inductive TradeStatus where
  | OPEN
  | CLOSED_TP
  | CLOSED_SL
  | CLOSED_SIGNAL
  | CLOSED_END
  deriving Repr, DecidableEq

/-- Trade direction (`TradeDirection`). -/
inductive TradeDirection where
  | LONG
  | SHORT
  deriving Repr, DecidableEq

/-- A single simulated trade (dataclass `Trade`). -/
structure Trade where
  symbol : String
  direction : TradeDirection
  entry_price : ℚ
  entry_time : ℤ
  position_size : ℚ
  status : TradeStatus := TradeStatus.OPEN
  exit_price : Option ℚ := none
  exit_time : Option ℤ := none
  pnl : ℚ := 0
  stop_loss : ℚ := 0
  take_profit : ℚ := 0
  deriving Repr, DecidableEq

/-- `Trade.close`: slip the exit price against the trader, set the terminal
status, and record PnL net of a round-trip commission on the entry value. -/
def Trade.close (t : Trade) (exitPrice : ℚ) (exitTime : ℤ) (status : TradeStatus)
    (slippage commission : ℚ) : Trade :=
  let ep := exitPrice *
    (if t.direction = TradeDirection.LONG then 1 - slippage else 1 + slippage)
  let rawPnl :=
    if t.direction = TradeDirection.LONG then (ep - t.entry_price) * t.position_size
    else (t.entry_price - ep) * t.position_size
  let commissionCost := t.entry_price * t.position_size * commission * 2
  { t with exit_price := some ep, exit_time := some exitTime, status := status,
           pnl := rawPnl - commissionCost }

/-- Backtest configuration (dataclass `BacktestConfig`, defaults from the
source). -/
structure BacktestConfig where
  initial_capital : ℚ := 10000
  position_size_pct : ℚ := 1/50
  stop_loss_pct : ℚ := 1/50
  take_profit_pct : ℚ := 1/25
  max_open_trades : ℕ := 3
  slippage_pct : ℚ := 1/1000
  commission_pct : ℚ := 1/1000
  deriving Repr, DecidableEq

/-- Mutable engine state (`_trades`, `_open_trades`, `_equity`,
`_equity_curve`). -/
structure EngineState where
  trades : List Trade
  openTrades : List (String × Trade)
  equity : ℚ
  equityCurve : List ℚ
  deriving Repr, DecidableEq

/-- Run results (dataclass `BacktestResult`).  `profit_factor = none` models
the `float("inf")` value of the all-winning case. -/
structure BacktestResult where
  trades : List Trade
  total_pnl : ℚ
  win_rate : ℚ
  profit_factor : Option ℚ
  max_drawdown : ℚ
  sharpe_ratio : ℝ
  total_trades : ℕ
  winning_trades : ℕ
  losing_trades : ℕ
  equity_curve : List ℚ

/-- `_reset`: fresh state seeded with the initial capital, the equity curve
already holding that first point. -/
def resetState (cfg : BacktestConfig) : EngineState :=
  { trades := [], openTrades := [], equity := cfg.initial_capital,
    equityCurve := [cfg.initial_capital] }

/-- `_get_aligned_timestamps`: sorted intersection of the timestamps of all
non-empty frames (`set` semantics, hence the dedup). -/
def alignedTimestamps (data : MarketData) : List ℤ :=
  let idxs := (data.map (fun p => p.2.bars.map (·.time))).filter (fun l => l ≠ [])
  match idxs with
  | [] => []
  | first :: rest =>
    (((first.filter (fun t => rest.all (fun l => l.contains t))).dedup).mergeSort (· ≤ ·))

/-- `_get_data_up_to`: truncate every frame to bars at or before `t`. -/
def dataUpTo (data : MarketData) (t : ℤ) : MarketData :=
  data.map (fun p => (p.1, { p.2 with bars := p.2.bars.filter (fun b => b.time ≤ t) }))

/-- Close decision of `_check_sl_tp` for one open trade on the current bar:
stop loss is checked before take profit in both directions; no decision when
the symbol has no (or an empty) frame. -/
def slTpDecision (trade : Trade) (dfOpt : Option Df) : Option TradeStatus :=
  match dfOpt with
  | none => none
  | some df =>
    match df.bars.getLast? with
    | none => none
    | some bar =>
      if trade.direction = TradeDirection.LONG then
        if bar.low ≤ trade.stop_loss then some TradeStatus.CLOSED_SL
        else if trade.take_profit ≤ bar.high then some TradeStatus.CLOSED_TP
        else none
      else
        if trade.stop_loss ≤ bar.high then some TradeStatus.CLOSED_SL
        else if bar.low ≤ trade.take_profit then some TradeStatus.CLOSED_TP
        else none

/-- Closing pass of `_check_sl_tp` for one collected `(symbol, status)`
decision: exit at the stop-loss price for CLOSED_SL and at the take-profit
price otherwise, append to the ledger, drop from the open set. -/
def slTpClose (cfg : BacktestConfig) (t : ℤ) (st : EngineState)
    (d : String × TradeStatus) : EngineState :=
  match alookup st.openTrades d.1 with
  | none => st
  | some trade =>
    let exitPrice := if d.2 = TradeStatus.CLOSED_SL then trade.stop_loss else trade.take_profit
    let closed := trade.close exitPrice t d.2 cfg.slippage_pct cfg.commission_pct
    { st with trades := st.trades ++ [closed], openTrades := aerase st.openTrades d.1 }

/-- `_check_sl_tp`: collect close decisions over all open trades, then close
them. -/
def checkSlTp (cfg : BacktestConfig) (st : EngineState) (data : MarketData)
    (t : ℤ) : EngineState :=
  let decisions := st.openTrades.filterMap
    (fun p => (slTpDecision p.2 (alookup data p.1)).map (fun s => (p.1, s)))
  decisions.foldl (slTpClose cfg t) st

/-- Signal direction opposed to an existing trade's direction. -/
def isOppositeSignal (dir : Direction) (existing : TradeDirection) : Bool :=
  if (dir = Direction.UPWARD ∧ existing = TradeDirection.SHORT) ∨
      (dir = Direction.DOWNWARD ∧ existing = TradeDirection.LONG) then true else false

/-- Trade-opening tail of `_process_signal`: subject to the max-open-trades
cap and data availability, open a trade at the latest close, sized from the
current running equity, with SL/TP fractions of the unslipped entry and the
entry price slipped against the trader.  (A zero entry price would raise
`ZeroDivisionError` in the source; Lean division by zero sizes the position
at 0.) -/
def openNewTrade (cfg : BacktestConfig) (st : EngineState) (symbol : String)
    (dir : Direction) (data : MarketData) (t : ℤ) : EngineState :=
  if cfg.max_open_trades ≤ st.openTrades.length then st
  else
    match (alookup data symbol).bind (fun df => df.bars.getLast?) with
    | none => st
    | some bar =>
      let entryPrice := bar.close
      let tradeDirection :=
        if dir = Direction.UPWARD then TradeDirection.LONG else TradeDirection.SHORT
      let positionValue := st.equity * cfg.position_size_pct
      let positionSize := positionValue / entryPrice
      let stopLoss :=
        if tradeDirection = TradeDirection.LONG then entryPrice * (1 - cfg.stop_loss_pct)
        else entryPrice * (1 + cfg.stop_loss_pct)
      let takeProfit :=
        if tradeDirection = TradeDirection.LONG then entryPrice * (1 + cfg.take_profit_pct)
        else entryPrice * (1 - cfg.take_profit_pct)
      let slippedEntry := entryPrice *
        (if tradeDirection = TradeDirection.LONG then 1 + cfg.slippage_pct
         else 1 - cfg.slippage_pct)
      let trade : Trade :=
        { symbol := symbol, direction := tradeDirection, entry_price := slippedEntry,
          entry_time := t, position_size := positionSize, stop_loss := stopLoss,
          take_profit := takeProfit }
      { st with openTrades := aset st.openTrades symbol trade }

/-- `_process_signal`: skip consolidation; with an open same-direction trade
do nothing; with an open opposite-direction trade close it at the current
close with CLOSED_SIGNAL and fall through — like the no-open-trade case — to
the trade-opening tail.  (A missing or empty frame in the opposite-close
branch would raise in the source; the embedding leaves the state
unchanged.) -/
def processSignal (cfg : BacktestConfig) (st : EngineState) (symbol : String)
    (dir : Direction) (data : MarketData) (t : ℤ) : EngineState :=
  if dir = Direction.CONSOLIDATION then st
  else
    match alookup st.openTrades symbol with
    | some existing =>
      if isOppositeSignal dir existing.direction then
        match (alookup data symbol).bind (fun df => df.bars.getLast?) with
        | none => st
        | some bar =>
          let closed := existing.close bar.close t TradeStatus.CLOSED_SIGNAL
            cfg.slippage_pct cfg.commission_pct
          openNewTrade cfg
            { st with trades := st.trades ++ [closed],
                      openTrades := aerase st.openTrades symbol }
            symbol dir data t
      else st
    | none => openNewTrade cfg st symbol dir data t

/-- `_update_equity`: initial capital plus realized PnL of closed trades plus
unrealized PnL of open trades at the latest close (open trades without data
contribute nothing). -/
def updateEquity (cfg : BacktestConfig) (st : EngineState) (data : MarketData) :
    EngineState :=
  let closedPnl := (st.trades.map (·.pnl)).sum
  let unrealized := (st.openTrades.map (fun p =>
    match (alookup data p.1).bind (fun df => df.bars.getLast?) with
    | none => 0
    | some bar =>
      if p.2.direction = TradeDirection.LONG then
        (bar.close - p.2.entry_price) * p.2.position_size
      else (p.2.entry_price - bar.close) * p.2.position_size)).sum
  { st with equity := cfg.initial_capital + closedPnl + unrealized }

/-- `_close_all_trades`: force-close every remaining open trade at the last
available close with CLOSED_END (symbols without data are skipped in the
ledger pass), then clear the open set. -/
def closeAllTrades (cfg : BacktestConfig) (data : MarketData) (t : ℤ)
    (st : EngineState) : EngineState :=
  let st1 := st.openTrades.foldl (fun s p =>
    match (alookup data p.1).bind (fun df => df.bars.getLast?) with
    | none => s
    | some bar =>
      { s with trades := s.trades ++
          [p.2.close bar.close t TradeStatus.CLOSED_END cfg.slippage_pct cfg.commission_pct] }) st
  { st1 with openTrades := [] }

/-- Running-peak drawdowns `(peak - value) / peak` along the curve. -/
def ddAux (peak : ℚ) : List ℚ → List ℚ
  | [] => []
  | v :: rest =>
    let pk := max peak v
    ((pk - v) / pk) :: ddAux pk rest

/-- `_calculate_max_drawdown`: largest running-peak drawdown, 0 for a curve
shorter than 2 points. -/
def maxDrawdown (curve : List ℚ) : ℚ :=
  match curve with
  | [] => 0
  | [_] => 0
  | v :: rest => ((ddAux v (v :: rest)).max?).getD 0

/-- Per-step relative returns `diff(equity) / equity[:-1]`. -/
def stepReturns : List ℚ → List ℚ
  | a :: b :: rest => ((b - a) / a) :: stepReturns (b :: rest)
  | _ => []

/-- `_calculate_sharpe_ratio`: mean step return over population standard
deviation, annualized with the fixed `6 * 252` periods-per-year assumption;
0 for short curves or zero variance. -/
noncomputable def sharpeRatio (curve : List ℚ) : ℝ :=
  if curve.length < 2 then 0
  else
    let returns := stepReturns curve
    if returns.length < 2 then 0
    else
      let meanR := listMeanQ returns
      let varR := listMeanQ (returns.map (fun r => (r - meanR) ^ 2))
      let stdR := Real.sqrt (varR : ℝ)
      if stdR = 0 then 0
      else ((meanR : ℚ) : ℝ) / stdR * Real.sqrt (6 * 252)

/-- `_compute_results`: aggregate metrics from the ledger and equity curve. -/
noncomputable def computeResults (st : EngineState) : BacktestResult :=
  if st.trades.isEmpty then
    { trades := [], total_pnl := 0, win_rate := 0, profit_factor := some 0,
      max_drawdown := 0, sharpe_ratio := 0, total_trades := 0, winning_trades := 0,
      losing_trades := 0, equity_curve := st.equityCurve }
  else
    let totalTrades := st.trades.length
    let winning := (st.trades.filter (fun t => 0 < t.pnl)).length
    let losing := totalTrades - winning
    let grossProfit := ((st.trades.filter (fun t => 0 < t.pnl)).map (·.pnl)).sum
    let grossLoss := |((st.trades.filter (fun t => t.pnl < 0)).map (·.pnl)).sum|
    { trades := st.trades,
      total_pnl := (st.trades.map (·.pnl)).sum,
      win_rate := (winning : ℚ) / (totalTrades : ℚ),
      profit_factor := if 0 < grossLoss then some (grossProfit / grossLoss) else none,
      max_drawdown := maxDrawdown st.equityCurve,
      sharpe_ratio := sharpeRatio st.equityCurve,
      total_trades := totalTrades, winning_trades := winning, losing_trades := losing,
      equity_curve := st.equityCurve }

/-- The slice of an `analyze_batch` result that the run loop consumes: per
symbol, whether a probability result exists and, if so, its direction and
actionability (`result.probability` / `is_actionable`). -/
abbrev AnalyzerFun := MarketData → List (String × Option (Direction × Bool))

/-- One iteration of the bar loop of `run`: SL/TP checks, signal processing
for every actionable signal, equity mark, one equity-curve point. -/
def runBar (cfg : BacktestConfig) (sig : AnalyzerFun) (data : MarketData)
    (st : EngineState) (t : ℤ) : EngineState :=
  let current := dataUpTo data t
  let st1 := checkSlTp cfg st current t
  let signals := sig current
  let st2 := signals.foldl (fun s p =>
    match p.2 with
    | some (dir, true) => processSignal cfg s p.1 dir current t
    | _ => s) st1
  let st3 := updateEquity cfg st2 current
  { st3 with equityCurve := st3.equityCurve ++ [st3.equity] }

/-- `BacktestEngine.run`: reset, bail out early on empty data or an empty
timestamp intersection, otherwise simulate bar by bar, force-close at the
final timestamp, and compute results.  The signal source is the analyzer
abstraction consumed by the loop. -/
noncomputable def run (cfg : BacktestConfig) (sig : AnalyzerFun) (data : MarketData) :
    BacktestResult :=
  let st0 := resetState cfg
  if data.isEmpty then computeResults st0
  else
    let ts := alignedTimestamps data
    if ts.isEmpty then computeResults st0
    else
      let stF := ts.foldl (runBar cfg sig data) st0
      let stG :=
        match ts.getLast? with
        | some tl => closeAllTrades cfg data tl stF
        | none => stF
      computeResults stG

/-! ## Claim theorems -/

/-- C4: whenever the volatility regime is CRISIS, `_classify_sentiment`
returns NEUTRAL with confidence exactly 0.4 and dominant factor
"crisis_volatility", regardless of the risk and safe-haven indicators: the
crisis check pre-empts the RISK_ON/RISK_OFF rules and the
elevated-volatility confidence reduction. -/
theorem classifySentiment_crisis_neutral (risk : RiskIndicators)
    (safeHaven : SafeHavenIndicators) (volatility : GlobalVolatilityIndicators)
    (h : volatility.regime = VolatilityRegimeGlobal.CRISIS) :
    classifySentiment risk safeHaven volatility =
      (RiskSentiment.NEUTRAL, 2/5, "crisis_volatility") := by
  simp [classifySentiment, h]

/-- Witness for C4 at a strongly risk-on input. -/
theorem classifySentiment_crisis_neutral_witness :
    ({ regime := VolatilityRegimeGlobal.CRISIS } : GlobalVolatilityIndicators).regime =
        VolatilityRegimeGlobal.CRISIS ∧
    classifySentiment { risk_score := 1 } { safe_haven_score := -1 }
        { regime := VolatilityRegimeGlobal.CRISIS } =
      (RiskSentiment.NEUTRAL, 2/5, "crisis_volatility") :=
  ⟨rfl, classifySentiment_crisis_neutral _ _ _ rfl⟩

/-- Weights whose raw sum 1.005 lies inside the 0.01 tolerance of
`__post_init__`. -/
def c5Weights : ProbabilityWeights :=
  { roc := 1/4, volatility := 1/4, volume := 1/4, correlation := 51/200 }

/-- C5 counterexample: weights summing to 1.005 pass the 0.01 tolerance
check unchanged, so after construction the weights do not sum to exactly
1.0. -/
theorem weights_postInit_not_exactly_one :
    c5Weights.postInit.total ≠ 1 := by
  have htol : ¬ ((1:ℚ)/100 < |c5Weights.total - 1|) := by
    rw [show c5Weights.total - 1 = 1/200 by rw [ProbabilityWeights.total]; norm_num [c5Weights]]
    rw [abs_of_pos (by norm_num)]
    norm_num
  rw [ProbabilityWeights.postInit, if_neg htol, ProbabilityWeights.total]
  norm_num [c5Weights]

/-- C5 (amended): after construction the weights sum to within 0.01 of 1.0 —
exactly 1.0 when the deviation of the raw sum exceeded the tolerance (the
normalization branch; a zero raw sum raises `ZeroDivisionError` in the
source and is excluded), and the untouched raw sum, off by at most 0.01,
otherwise. -/
theorem weights_postInit_sum_near_one (w : ProbabilityWeights)
    (h : w.total ≠ 0) : |w.postInit.total - 1| ≤ 1/100 := by
  unfold ProbabilityWeights.postInit
  split
  · have hsum : (⟨w.roc / w.total, w.volatility / w.total, w.volume / w.total,
        w.correlation / w.total⟩ : ProbabilityWeights).total = w.total / w.total := by
      show w.roc / w.total + w.volatility / w.total + w.volume / w.total +
          w.correlation / w.total = w.total / w.total
      rw [ProbabilityWeights.total]
      ring
    rw [hsum, div_self h]
    norm_num
  · next hle =>
    rw [not_lt] at hle
    linarith [abs_nonneg (w.total - 1)]

/-- Witness for C5 at raw sum 5. -/
theorem weights_postInit_sum_near_one_witness :
    ({ roc := 2, volatility := 1, volume := 1, correlation := 1 } :
        ProbabilityWeights).total ≠ 0 ∧
    |({ roc := 2, volatility := 1, volume := 1, correlation := 1 } :
        ProbabilityWeights).postInit.total - 1| ≤ 1/100 :=
  ⟨by rw [ProbabilityWeights.total]; norm_num,
   weights_postInit_sum_near_one _ (by rw [ProbabilityWeights.total]; norm_num)⟩

/-- C3 counterexample: a provided average correlation of 0.0 is falsy in the
Python expression `avg_correlation if avg_correlation else 0.5`, so the
correlation factor comes out as the neutral 0.5, not as the provided 0.0. -/
theorem calculateFactors_zero_correlation_replaced :
    (calculateFactors 24 14 ⟨[], false⟩ (some 0)).correlation = 1/2 ∧
      ((1 : ℝ)/2 ≠ 0) := by
  constructor
  · simp [calculateFactors]
  · norm_num

/-- C3 (amended): the correlation factor equals the supplied
`avg_correlation` whenever it is provided and nonzero; when it is absent —
or provided as the falsy 0.0 — the neutral constant 0.5 is used. -/
theorem calculateFactors_correlation_factor (lookback atrPeriod : ℕ) (df : Df)
    (c : ℝ) (h : c ≠ 0) :
    (calculateFactors lookback atrPeriod df (some c)).correlation = c ∧
    (calculateFactors lookback atrPeriod df none).correlation = 1/2 ∧
    (calculateFactors lookback atrPeriod df (some 0)).correlation = 1/2 := by
  refine ⟨?_, ?_, ?_⟩
  · simp [calculateFactors, h]
  · simp [calculateFactors]
  · simp [calculateFactors]

/-- Witness for C3 at a provided correlation of 0.75. -/
theorem calculateFactors_correlation_factor_witness :
    ((3 : ℝ)/4 ≠ 0) ∧
    (calculateFactors 24 14 ⟨[], false⟩ (some (3/4))).correlation = 3/4 ∧
    (calculateFactors 24 14 ⟨[], false⟩ none).correlation = 1/2 ∧
    (calculateFactors 24 14 ⟨[], false⟩ (some 0)).correlation = 1/2 :=
  ⟨by norm_num, calculateFactors_correlation_factor 24 14 ⟨[], false⟩ (3/4) (by norm_num)⟩

/-- C8: a probability signal is emitted iff the result's confidence is at
least `CONFIDENCE_THRESHOLD` (0.4), it is a PROBABILITY_SIGNAL event, and
its importance is 2 iff the confidence is at least
`HIGH_CONFIDENCE_THRESHOLD` (0.6), otherwise 1. -/
theorem generateProbabilityEvents_thresholds (r : ProbabilityResult) (tf : String) :
    (generateProbabilityEvents r tf ≠ [] ↔ (CONFIDENCE_THRESHOLD : ℝ) ≤ r.confidence) ∧
    ∀ e ∈ generateProbabilityEvents r tf,
      e.event_type = EventType.PROBABILITY_SIGNAL ∧
      (e.importance = 2 ↔ (HIGH_CONFIDENCE_THRESHOLD : ℝ) ≤ r.confidence) ∧
      (r.confidence < (HIGH_CONFIDENCE_THRESHOLD : ℝ) → e.importance = 1) := by
  unfold generateProbabilityEvents
  by_cases h : r.confidence < (CONFIDENCE_THRESHOLD : ℝ)
  · rw [if_pos h]
    refine ⟨by simp [not_le.mpr h], ?_⟩
    intro e he
    exact absurd he (List.not_mem_nil e)
  · rw [if_neg h]
    refine ⟨by simp [not_lt.mp h], ?_⟩
    intro e he
    rw [List.mem_singleton] at he
    subst he
    refine ⟨rfl, ?_, ?_⟩
    · by_cases h2 : (HIGH_CONFIDENCE_THRESHOLD : ℝ) ≤ r.confidence
      · simp [h2]
      · simp [h2]
    · intro h3
      simp [not_le.mpr h3]

/-- Probability result used to witness C8. -/
noncomputable def c8Result : ProbabilityResult :=
  { symbol := "EURUSD", direction := Direction.UPWARD,
    probabilities := ⟨7/10, 1/10, 1/5⟩, confidence := 7/10, is_actionable := true,
    factors := ⟨0, 1, 1, 1/2⟩, market_context := none }

/-- The event C8's witness expects `c8Result` to produce. -/
noncomputable def c8Event : AnalysisEvent :=
  { event_type := EventType.PROBABILITY_SIGNAL, symbol := "EURUSD", timeframe := "4h",
    importance := 2,
    data := EventData.probability Direction.UPWARD (7/10) true none }

/-- Witness for C8 at confidence 0.7. -/
theorem generateProbabilityEvents_thresholds_witness :
    c8Event ∈ generateProbabilityEvents c8Result "4h" ∧ c8Event.importance = 2 := by
  have hmem : c8Event ∈ generateProbabilityEvents c8Result "4h" := by
    have hc : ¬ ((c8Result.confidence : ℝ) < (CONFIDENCE_THRESHOLD : ℝ)) := by
      norm_num [c8Result, CONFIDENCE_THRESHOLD]
    have hh : (HIGH_CONFIDENCE_THRESHOLD : ℝ) ≤ c8Result.confidence := by
      norm_num [c8Result, HIGH_CONFIDENCE_THRESHOLD]
    rw [generateProbabilityEvents, if_neg hc]
    simp only [if_pos hh, List.mem_singleton]
    simp [c8Event, c8Result]
  refine ⟨hmem, ?_⟩
  exact ((generateProbabilityEvents_thresholds c8Result "4h").2 c8Event hmem).2.1.mpr
    (by norm_num [c8Result, HIGH_CONFIDENCE_THRESHOLD])

/-- With no sentiment supplied, `predict` never records a market context. -/
theorem predict_no_sentiment_no_context (cfg : ProbabilityModelConfig) (df : Df)
    (symbol : String) (ac : Option ℝ) (p : ProbabilityResult)
    (h : predict cfg df symbol ac none = some p) : p.market_context = none := by
  unfold predict at h
  split at h
  · exact absurd h (by simp)
  · cases h
    rfl

/-- C9: `analyze_batch` calls `analyze` without a `market_sentiment`
argument, so every probability result it returns carries no market context
(its probabilities were never sentiment-adjusted) and every analysis result
records no sentiment. -/
theorem analyzeBatch_signals_unadjusted (acfg : ProbabilisticAnalyzerConfig)
    (matrix : CorrMatrix) (data : MarketData) (tf sym : String)
    (res : AnalysisResult) (p : ProbabilityResult)
    (hres : alookup (analyzeBatch acfg matrix data tf) sym = some res)
    (hp : res.probability = some p) :
    p.market_context = none ∧ res.market_sentiment = none := by
  induction data with
  | nil => simp [analyzeBatch, alookup] at hres
  | cons hd tl ih =>
    rw [analyzeBatch, List.map_cons, alookup] at hres
    split at hres
    · cases hres
      refine ⟨?_, rfl⟩
      exact predict_no_sentiment_no_context acfg.probCfg hd.2 hd.1
        (getAverageCorrelation matrix hd.1) p hp
    · exact ih hres

/-- Bars for the C9 witness frame. -/
def c9Bar (i : ℕ) : Bar :=
  { time := (i : ℤ), op := 1, high := 2, low := 1, close := 1, volume := 1 }

/-- Frame with 25 bars, enough history for the default 24-bar lookback. -/
def c9Df : Df := ⟨(List.range 25).map c9Bar, true⟩

/-- Witness for C9 on a one-symbol batch. -/
theorem analyzeBatch_signals_unadjusted_witness :
    (predictCore ({} : ProbabilisticAnalyzerConfig).probCfg c9Df "EURUSD"
        (getAverageCorrelation [] "EURUSD") none).market_context = none ∧
    (analyze ({} : ProbabilisticAnalyzerConfig) [] c9Df "EURUSD" "4h"
        none).market_sentiment = none :=
  analyzeBatch_signals_unadjusted {} [] [("EURUSD", c9Df)] "4h" "EURUSD" _ _ rfl rfl

/-- Softmax output is a probability vector: nonnegative entries of exact
unit sum. -/
theorem softmax_valid (s : Scores) :
    0 ≤ (softmax s).up ∧ 0 ≤ (softmax s).down ∧ 0 ≤ (softmax s).cons ∧
    (softmax s).up + (softmax s).down + (softmax s).cons = 1 := by
  unfold softmax
  dsimp only
  have hu := Real.exp_pos (s.up - max s.up (max s.down s.cons))
  have hd := Real.exp_pos (s.down - max s.up (max s.down s.cons))
  have hc := Real.exp_pos (s.cons - max s.up (max s.down s.cons))
  have hT : 0 < Real.exp (s.up - max s.up (max s.down s.cons)) +
      Real.exp (s.down - max s.up (max s.down s.cons)) +
      Real.exp (s.cons - max s.up (max s.down s.cons)) := by linarith
  refine ⟨div_nonneg hu.le hT.le, div_nonneg hd.le hT.le, div_nonneg hc.le hT.le, ?_⟩
  rw [div_add_div_same, div_add_div_same, div_self hT.ne']

/-- The sentiment/asset-class modifier only ever takes the four tabulated
values. -/
theorem contextModifier_cases (symbol : String) (s : MarketSentiment) :
    (contextModifier symbol s).1 = 1 ∨ (contextModifier symbol s).1 = 11/10 ∨
    (contextModifier symbol s).1 = 19/20 ∨ (contextModifier symbol s).1 = 9/10 := by
  unfold contextModifier
  by_cases h1 : s.risk_sentiment = RiskSentiment.RISK_ON <;>
    by_cases h2 : s.risk_sentiment = RiskSentiment.RISK_OFF <;>
      by_cases h3 : isRiskAssetSymbol symbol <;>
        by_cases h4 : isSafeHavenSymbol symbol <;>
          simp [h1, h2, h3, h4]

/-- The market-context adjustment preserves nonnegativity and exact unit
sum of the probability vector. -/
theorem applyMarketContext_valid (p : Probs) (symbol : String) (s : MarketSentiment)
    (hu : 0 ≤ p.up) (hd : 0 ≤ p.down) (hc : 0 ≤ p.cons)
    (hsum : p.up + p.down + p.cons = 1) :
    0 ≤ (applyMarketContext p symbol s).1.up ∧
    0 ≤ (applyMarketContext p symbol s).1.down ∧
    0 ≤ (applyMarketContext p symbol s).1.cons ∧
    (applyMarketContext p symbol s).1.up + (applyMarketContext p symbol s).1.down +
      (applyMarketContext p symbol s).1.cons = 1 := by
  have hq0 : (0:ℚ) < (contextModifier symbol s).1 := by
    obtain h | h | h | h := contextModifier_cases symbol s <;> rw [h] <;> norm_num
  have hq2 : (contextModifier symbol s).1 < 2 := by
    obtain h | h | h | h := contextModifier_cases symbol s <;> rw [h] <;> norm_num
  unfold applyMarketContext
  dsimp only
  set q := (contextModifier symbol s).1 with hqdef
  set cons1 : ℝ := p.cons +
    (if s.volatility_indicators.regime = VolatilityRegimeGlobal.CRISIS then 3/20 else 0)
    with hcons1
  set up1 : ℝ := if 1 < q then p.up * (q : ℝ) else p.up with hup1
  set down1 : ℝ := if q < 1 then p.down * (((2 - q : ℚ)) : ℝ) else p.down with hdown1
  have hcons1_ge : p.cons ≤ cons1 := by
    rw [hcons1]
    split_ifs <;> norm_num
  have hcons1_nonneg : 0 ≤ cons1 := le_trans hc hcons1_ge
  have hup1_ge : p.up ≤ up1 := by
    rw [hup1]
    split_ifs with h1
    · exact le_mul_of_one_le_right hu (by exact_mod_cast h1.le)
    · exact le_refl _
  have hup1_nonneg : 0 ≤ up1 := le_trans hu hup1_ge
  have hdown1_ge : p.down ≤ down1 := by
    rw [hdown1]
    split_ifs with h1
    · refine le_mul_of_one_le_right hd ?_
      have : (1:ℚ) ≤ 2 - q := by linarith
      exact_mod_cast this
    · exact le_refl _
  have hdown1_nonneg : 0 ≤ down1 := le_trans hd hdown1_ge
  have htotal : 0 < up1 + down1 + cons1 := by
    have : (1:ℝ) ≤ up1 + down1 + cons1 := by
      rw [← hsum]
      linarith
    linarith
  rw [if_pos htotal]
  refine ⟨div_nonneg hup1_nonneg htotal.le, div_nonneg hdown1_nonneg htotal.le,
    div_nonneg hcons1_nonneg htotal.le, ?_⟩
  rw [div_add_div_same, div_add_div_same, div_self htotal.ne']

/-- C2: every probability result returned by `predict` — with or without a
sentiment, i.e. before or after the crisis consolidation bump, the modifier
multiplication and the renormalization of `_apply_market_context` — has
three nonnegative direction probabilities summing to 1.0 within 1e-6. -/
theorem predict_probabilities_valid (cfg : ProbabilityModelConfig) (df : Df)
    (symbol : String) (ac : Option ℝ) (s : Option MarketSentiment)
    (r : ProbabilityResult) (h : predict cfg df symbol ac s = some r) :
    0 ≤ r.probabilities.up ∧ 0 ≤ r.probabilities.down ∧ 0 ≤ r.probabilities.cons ∧
    |r.probabilities.up + r.probabilities.down + r.probabilities.cons - 1| ≤
      1/1000000 := by
  unfold predict at h
  split at h
  · exact absurd h (by simp)
  · cases h
    cases s with
    | none =>
      have hs := softmax_valid (rawScores cfg.weights
        (calculateFactors cfg.lookback_periods cfg.atr_period df ac))
      refine ⟨hs.1, hs.2.1, hs.2.2.1, ?_⟩
      show |(softmax (rawScores cfg.weights
          (calculateFactors cfg.lookback_periods cfg.atr_period df ac))).up +
        (softmax (rawScores cfg.weights
          (calculateFactors cfg.lookback_periods cfg.atr_period df ac))).down +
        (softmax (rawScores cfg.weights
          (calculateFactors cfg.lookback_periods cfg.atr_period df ac))).cons - 1| ≤
        1/1000000
      rw [hs.2.2.2]
      norm_num
    | some sent =>
      have hs := softmax_valid (rawScores cfg.weights
        (calculateFactors cfg.lookback_periods cfg.atr_period df ac))
      have ha := applyMarketContext_valid
        (softmax (rawScores cfg.weights
          (calculateFactors cfg.lookback_periods cfg.atr_period df ac)))
        symbol sent hs.1 hs.2.1 hs.2.2.1 hs.2.2.2
      refine ⟨ha.1, ha.2.1, ha.2.2.1, ?_⟩
      show |(applyMarketContext (softmax (rawScores cfg.weights
          (calculateFactors cfg.lookback_periods cfg.atr_period df ac))) symbol sent).1.up +
        (applyMarketContext (softmax (rawScores cfg.weights
          (calculateFactors cfg.lookback_periods cfg.atr_period df ac))) symbol sent).1.down +
        (applyMarketContext (softmax (rawScores cfg.weights
          (calculateFactors cfg.lookback_periods cfg.atr_period df ac))) symbol sent).1.cons -
        1| ≤ 1/1000000
      rw [ha.2.2.2]
      norm_num

/-- Single-bar frame for the C2 witness. -/
def c2Df : Df := ⟨[⟨0, 1, 1, 1, 1, 1⟩], true⟩

/-- Witness for C2 with a zero-lookback model on a one-bar frame. -/
theorem predict_probabilities_valid_witness :
    0 ≤ (predictCore { lookback_periods := 0 } c2Df "EURUSD" none none).probabilities.up ∧
    0 ≤ (predictCore { lookback_periods := 0 } c2Df "EURUSD" none none).probabilities.down ∧
    0 ≤ (predictCore { lookback_periods := 0 } c2Df "EURUSD" none none).probabilities.cons ∧
    |(predictCore { lookback_periods := 0 } c2Df "EURUSD" none none).probabilities.up +
      (predictCore { lookback_periods := 0 } c2Df "EURUSD" none none).probabilities.down +
      (predictCore { lookback_periods := 0 } c2Df "EURUSD" none none).probabilities.cons -
      1| ≤ 1/1000000 :=
  predict_probabilities_valid { lookback_periods := 0 } c2Df "EURUSD" none none _ rfl

/-- Lookup after a dict update finds the updated value. -/
theorem alookup_aset_self {β : Type} (l : List (String × β)) (k : String) (v : β) :
    alookup (aset l k v) k = some v := by
  induction l with
  | nil => simp [aset, alookup]
  | cons hd tl ih =>
    by_cases h : hd.1 = k
    · simp [aset, h, alookup]
    · simp [aset, h, alookup, ih]

/-- The trade-opening tail never touches the closed-trade ledger. -/
theorem openNewTrade_trades (cfg : BacktestConfig) (st : EngineState) (symbol : String)
    (dir : Direction) (data : MarketData) (t : ℤ) :
    (openNewTrade cfg st symbol dir data t).trades = st.trades := by
  unfold openNewTrade
  split
  · rfl
  · split <;> rfl

/-- The trade-opening tail never touches the equity curve. -/
theorem openNewTrade_curve (cfg : BacktestConfig) (st : EngineState) (symbol : String)
    (dir : Direction) (data : MarketData) (t : ℤ) :
    (openNewTrade cfg st symbol dir data t).equityCurve = st.equityCurve := by
  unfold openNewTrade
  split
  · rfl
  · split <;> rfl

/-- Short trade held open in the C1 scenario. -/
def c1ShortTrade : Trade :=
  { symbol := "EURUSD", direction := TradeDirection.SHORT, entry_price := 6/5,
    entry_time := 0, position_size := 100, stop_loss := 63/50, take_profit := 27/25 }

/-- Engine state of the C1 scenario: one open short trade. -/
def c1State : EngineState :=
  { trades := [], openTrades := [("EURUSD", c1ShortTrade)], equity := 10000,
    equityCurve := [10000] }

/-- Current bar of the C1 scenario. -/
def c1Bar : Bar := { time := 5, op := 11/10, high := 23/20, low := 21/20, close := 11/10, volume := 1000 }

/-- Market data of the C1 scenario. -/
def c1Data : MarketData := [("EURUSD", ⟨[c1Bar], true⟩)]

/-- C1 counterexample: an UPWARD signal against an open SHORT trade closes it
(one ledger entry) but then falls through to the open logic and puts a fresh
LONG trade for the same symbol into the open set on the same bar — the
open-trade set for the symbol is NOT empty after processing the signal. -/
theorem processSignal_opposite_reopens :
    ((alookup (processSignal {} c1State "EURUSD" Direction.UPWARD c1Data 5).openTrades
        "EURUSD").map (·.direction) = some TradeDirection.LONG) ∧
    (processSignal {} c1State "EURUSD" Direction.UPWARD c1Data 5).trades.length = 1 :=
  ⟨rfl, rfl⟩

/-- C1 (amended): on an actionable opposite-direction signal the engine
closes the existing trade at the current bar's close with CLOSED_SIGNAL and
then — unlike the same-direction no-op — proceeds to the trade-opening tail
on the same bar: whenever the remaining open-trade count is below the cap
(and the bar exists), a replacement trade in the signal's direction is
opened for the symbol. -/
theorem processSignal_opposite_closes_then_reopens (cfg : BacktestConfig)
    (st : EngineState) (symbol : String) (dir : Direction) (data : MarketData)
    (t : ℤ) (existing : Trade) (df : Df) (bar : Bar)
    (hopen : alookup st.openTrades symbol = some existing)
    (hopp : isOppositeSignal dir existing.direction = true)
    (hdf : alookup data symbol = some df)
    (hbar : df.bars.getLast? = some bar) :
    (processSignal cfg st symbol dir data t).trades =
      st.trades ++ [existing.close bar.close t TradeStatus.CLOSED_SIGNAL
        cfg.slippage_pct cfg.commission_pct] ∧
    ((aerase st.openTrades symbol).length < cfg.max_open_trades →
      ∃ newTrade : Trade,
        alookup (processSignal cfg st symbol dir data t).openTrades symbol =
          some newTrade ∧
        newTrade.status = TradeStatus.OPEN ∧
        newTrade.direction =
          (if dir = Direction.UPWARD then TradeDirection.LONG else TradeDirection.SHORT) ∧
        newTrade.entry_time = t) := by
  have hdir : ¬ (dir = Direction.CONSOLIDATION) := by
    intro hcon
    subst hcon
    simp [isOppositeSignal] at hopp
  have hps : processSignal cfg st symbol dir data t =
      openNewTrade cfg
        (EngineState.mk
          (st.trades ++ [existing.close bar.close t TradeStatus.CLOSED_SIGNAL
            cfg.slippage_pct cfg.commission_pct])
          (aerase st.openTrades symbol) st.equity st.equityCurve)
        symbol dir data t := by
    unfold processSignal
    rw [if_neg hdir, hopen]
    dsimp only
    rw [if_pos hopp]
    rw [hdf]
    dsimp only [Option.bind]
    rw [hbar]
  rw [hps]
  constructor
  · rw [openNewTrade_trades]
  · intro hcap
    unfold openNewTrade
    rw [if_neg (not_le.mpr hcap)]
    dsimp only
    rw [hdf]
    dsimp only [Option.bind]
    rw [hbar]
    dsimp only
    exact ⟨_, alookup_aset_self _ _ _, rfl, rfl, rfl⟩

/-- Witness for C1's amended claim on the concrete scenario. -/
theorem processSignal_opposite_closes_then_reopens_witness :
    (processSignal {} c1State "EURUSD" Direction.UPWARD c1Data 5).trades =
      c1State.trades ++ [c1ShortTrade.close c1Bar.close 5 TradeStatus.CLOSED_SIGNAL
        ({} : BacktestConfig).slippage_pct ({} : BacktestConfig).commission_pct] ∧
    ((aerase c1State.openTrades "EURUSD").length < ({} : BacktestConfig).max_open_trades →
      ∃ newTrade : Trade,
        alookup (processSignal {} c1State "EURUSD" Direction.UPWARD c1Data 5).openTrades
          "EURUSD" = some newTrade ∧
        newTrade.status = TradeStatus.OPEN ∧
        newTrade.direction = (if Direction.UPWARD = Direction.UPWARD then
          TradeDirection.LONG else TradeDirection.SHORT) ∧
        newTrade.entry_time = 5) :=
  processSignal_opposite_closes_then_reopens {} c1State "EURUSD" Direction.UPWARD
    c1Data 5 c1ShortTrade ⟨[c1Bar], true⟩ c1Bar rfl rfl rfl rfl

/-- A successful lookup is a binding of the list. -/
theorem alookup_mem {β : Type} : ∀ {l : List (String × β)} {k : String} {v : β},
    alookup l k = some v → (k, v) ∈ l := by
  intro l
  induction l with
  | nil => intro k v h; simp [alookup] at h
  | cons hd tl ih =>
    intro k v h
    obtain ⟨a, b⟩ := hd
    rw [alookup] at h
    split at h
    · next heq =>
      cases h
      subst heq
      exact List.mem_cons_self _ _
    · exact List.mem_cons_of_mem _ (ih h)

/-- A key outside the key list looks up to nothing. -/
theorem alookup_eq_none_of_keys {β : Type} : ∀ {l : List (String × β)} {k : String},
    k ∉ l.map Prod.fst → alookup l k = none := by
  intro l
  induction l with
  | nil => intro k _; rfl
  | cons hd tl ih =>
    intro k h
    obtain ⟨a, b⟩ := hd
    rw [alookup, if_neg (fun hh => h (by rw [← hh]; exact List.mem_cons_self _ _))]
    exact ih (fun hm => h (List.mem_cons_of_mem _ hm))

/-- Erasing a different key does not change a lookup. -/
theorem alookup_aerase_of_ne {β : Type} : ∀ (l : List (String × β)) {k k2 : String},
    k2 ≠ k → alookup (aerase l k2) k = alookup l k := by
  intro l
  induction l with
  | nil => intro k k2 _; rfl
  | cons hd tl ih =>
    intro k k2 h
    obtain ⟨a, b⟩ := hd
    rw [aerase]
    by_cases ha : a = k2
    · subst ha
      rw [if_pos rfl, alookup, if_neg h]
    · rw [if_neg ha, alookup, alookup]
      by_cases hak : a = k
      · rw [if_pos hak, if_pos hak]
      · rw [if_neg hak, if_neg hak]
        exact ih h

/-- Erasing never makes an absent key present. -/
theorem alookup_aerase_none {β : Type} : ∀ (l : List (String × β)) (k k2 : String),
    alookup l k = none → alookup (aerase l k2) k = none := by
  intro l
  induction l with
  | nil => intro k k2 _; rfl
  | cons hd tl ih =>
    intro k k2 h
    obtain ⟨a, b⟩ := hd
    rw [alookup] at h
    by_cases hak : a = k
    · rw [if_pos hak] at h
      cases h
    · rw [if_neg hak] at h
      rw [aerase]
      by_cases hk2 : a = k2
      · rw [if_pos hk2]
        exact h
      · rw [if_neg hk2, alookup, if_neg hak]
        exact ih k k2 h

/-- Erasing keeps a sublist of the keys. -/
theorem aerase_keys_sublist {β : Type} : ∀ (l : List (String × β)) (k : String),
    ((aerase l k).map Prod.fst).Sublist (l.map Prod.fst) := by
  intro l
  induction l with
  | nil => intro k; simp [aerase]
  | cons hd tl ih =>
    intro k
    obtain ⟨a, b⟩ := hd
    rw [aerase]
    by_cases hak : a = k
    · rw [if_pos hak, List.map_cons]
      exact (List.Sublist.refl _).cons a
    · rw [if_neg hak, List.map_cons, List.map_cons]
      exact (ih k).cons₂ a

/-- With unique keys, erasing a key removes it entirely. -/
theorem alookup_aerase_self_of_nodup {β : Type} : ∀ {l : List (String × β)},
    (l.map Prod.fst).Nodup → ∀ (k : String), alookup (aerase l k) k = none := by
  intro l
  induction l with
  | nil => intro _ k; rfl
  | cons hd tl ih =>
    intro hn k
    obtain ⟨a, b⟩ := hd
    rw [List.map_cons, List.nodup_cons] at hn
    rw [aerase]
    by_cases hak : a = k
    · rw [if_pos hak]
      subst hak
      exact alookup_eq_none_of_keys hn.1
    · rw [if_neg hak, alookup, if_neg hak]
      exact ih hn.2 k

/-- Keys of a key-preserving filterMap form a sublist of the original keys. -/
theorem filterMap_pair_keys_sublist {β γ : Type} (g : String × β → Option γ) :
    ∀ (l : List (String × β)),
    ((l.filterMap (fun p => (g p).map (fun c => (p.1, c)))).map Prod.fst).Sublist
      (l.map Prod.fst) := by
  intro l
  induction l with
  | nil => simp
  | cons hd tl ih =>
    rw [List.filterMap_cons]
    cases hg : g hd with
    | none =>
      simp only [hg, Option.map_none', List.map_cons]
      exact ih.cons hd.1
    | some c =>
      simp only [hg, Option.map_some', List.map_cons]
      exact ih.cons₂ hd.1

/-- One SL/TP closing step keeps every existing ledger entry. -/
theorem slTpClose_trades_subset (cfg : BacktestConfig) (t : ℤ) (st : EngineState)
    (d : String × TradeStatus) {x : Trade} (hx : x ∈ st.trades) :
    x ∈ (slTpClose cfg t st d).trades := by
  unfold slTpClose
  split
  · exact hx
  · exact List.mem_append_left _ hx

/-- One SL/TP closing step never revives an absent key. -/
theorem slTpClose_lookup_none (cfg : BacktestConfig) (t : ℤ) (st : EngineState)
    (d : String × TradeStatus) (k : String)
    (h : alookup st.openTrades k = none) :
    alookup (slTpClose cfg t st d).openTrades k = none := by
  unfold slTpClose
  split
  · exact h
  · exact alookup_aerase_none _ k d.1 h

/-- One SL/TP closing step keeps the open-trade keys duplicate-free. -/
theorem slTpClose_keys_nodup (cfg : BacktestConfig) (t : ℤ) (st : EngineState)
    (d : String × TradeStatus) (hn : (st.openTrades.map Prod.fst).Nodup) :
    ((slTpClose cfg t st d).openTrades.map Prod.fst).Nodup := by
  unfold slTpClose
  split
  · exact hn
  · exact hn.sublist (aerase_keys_sublist _ _)

/-- One SL/TP closing step for a different symbol does not change a lookup. -/
theorem slTpClose_lookup_preserve (cfg : BacktestConfig) (t : ℤ) (st : EngineState)
    (d : String × TradeStatus) (k : String) (hne : d.1 ≠ k) :
    alookup (slTpClose cfg t st d).openTrades k = alookup st.openTrades k := by
  unfold slTpClose
  split
  · rfl
  · exact alookup_aerase_of_ne _ hne

/-- Ledger entries survive the whole closing pass. -/
theorem foldl_slTpClose_trades_subset (cfg : BacktestConfig) (t : ℤ) :
    ∀ (ds : List (String × TradeStatus)) (st : EngineState) {x : Trade},
    x ∈ st.trades → x ∈ (ds.foldl (slTpClose cfg t) st).trades := by
  intro ds
  induction ds with
  | nil => intro st x hx; exact hx
  | cons d tl ih =>
    intro st x hx
    exact ih _ (slTpClose_trades_subset cfg t st d hx)

/-- Absent keys stay absent through the whole closing pass. -/
theorem foldl_slTpClose_lookup_none (cfg : BacktestConfig) (t : ℤ) :
    ∀ (ds : List (String × TradeStatus)) (st : EngineState) (k : String),
    alookup st.openTrades k = none →
    alookup ((ds.foldl (slTpClose cfg t) st)).openTrades k = none := by
  intro ds
  induction ds with
  | nil => intro st k h; exact h
  | cons d tl ih =>
    intro st k h
    exact ih _ k (slTpClose_lookup_none cfg t st d k h)

/-- The closing pass of `_check_sl_tp` closes exactly the decided trade: its
closed form (at the decided exit price) lands in the ledger and its symbol
leaves the open set. -/
theorem foldl_slTpClose_closes (cfg : BacktestConfig) (t : ℤ) :
    ∀ (ds : List (String × TradeStatus)) (st : EngineState) (sym : String)
      (status : TradeStatus) (trade : Trade),
    (sym, status) ∈ ds → (ds.map Prod.fst).Nodup →
    (st.openTrades.map Prod.fst).Nodup →
    alookup st.openTrades sym = some trade →
    trade.close (if status = TradeStatus.CLOSED_SL then trade.stop_loss
        else trade.take_profit) t status cfg.slippage_pct cfg.commission_pct ∈
      (ds.foldl (slTpClose cfg t) st).trades ∧
    alookup (ds.foldl (slTpClose cfg t) st).openTrades sym = none := by
  intro ds
  induction ds with
  | nil => intro st sym status trade hmem; simp at hmem
  | cons d tl ih =>
    intro st sym status trade hmem hnd hno hl
    rw [List.map_cons, List.nodup_cons] at hnd
    rcases List.mem_cons.mp hmem with heq | hmem2
    · subst heq
      rw [List.foldl_cons]
      have hstep : slTpClose cfg t st (sym, status) = EngineState.mk
          (st.trades ++ [trade.close
            (if status = TradeStatus.CLOSED_SL then trade.stop_loss
              else trade.take_profit) t status cfg.slippage_pct cfg.commission_pct])
          (aerase st.openTrades sym) st.equity st.equityCurve := by
        unfold slTpClose
        rw [hl]
      rw [hstep]
      constructor
      · exact foldl_slTpClose_trades_subset cfg t tl _
          (List.mem_append_right _ (List.mem_singleton_self _))
      · exact foldl_slTpClose_lookup_none cfg t tl _ sym
          (alookup_aerase_self_of_nodup hno sym)
    · rw [List.foldl_cons]
      have hne : d.1 ≠ sym := by
        intro he
        exact hnd.1 (he ▸ List.mem_map_of_mem Prod.fst hmem2)
      exact ih (slTpClose cfg t st d) sym status trade hmem2 hnd.2
        (slTpClose_keys_nodup cfg t st d hno)
        (by rw [slTpClose_lookup_preserve cfg t st d sym hne]; exact hl)

/-- `_check_sl_tp` closes an open trade exactly as its decision dictates. -/
theorem checkSlTp_closes (cfg : BacktestConfig) (st : EngineState) (data : MarketData)
    (t : ℤ) (sym : String) (trade : Trade) (status : TradeStatus)
    (hn : (st.openTrades.map Prod.fst).Nodup)
    (hopen : alookup st.openTrades sym = some trade)
    (hdec : slTpDecision trade (alookup data sym) = some status) :
    trade.close (if status = TradeStatus.CLOSED_SL then trade.stop_loss
        else trade.take_profit) t status cfg.slippage_pct cfg.commission_pct ∈
      (checkSlTp cfg st data t).trades ∧
    alookup (checkSlTp cfg st data t).openTrades sym = none := by
  unfold checkSlTp
  refine foldl_slTpClose_closes cfg t _ st sym status trade ?_ ?_ hn hopen
  · exact List.mem_filterMap.mpr ⟨(sym, trade), alookup_mem hopen, by rw [hdec]; rfl⟩
  · exact hn.sublist (filterMap_pair_keys_sublist
      (fun p => slTpDecision p.2 (alookup data p.1)) st.openTrades)

/-- C7: in `_check_sl_tp` the stop loss is checked before the take profit.
A LONG trade whose bar touches the stop loss (in particular on a bar
touching both exit levels) closes with CLOSED_SL at the stop-loss price;
only when the stop loss is untouched does a touched take profit close it
with CLOSED_TP at the take-profit price; symmetrically for SHORT trades.
Slippage and commission are applied through `Trade.close`. -/
theorem checkSlTp_stop_loss_first (cfg : BacktestConfig) (st : EngineState)
    (data : MarketData) (t : ℤ) (sym : String) (trade : Trade) (df : Df) (bar : Bar)
    (hn : (st.openTrades.map Prod.fst).Nodup)
    (hopen : alookup st.openTrades sym = some trade)
    (hdf : alookup data sym = some df)
    (hbar : df.bars.getLast? = some bar) :
    (trade.direction = TradeDirection.LONG →
      (bar.low ≤ trade.stop_loss →
        trade.close trade.stop_loss t TradeStatus.CLOSED_SL
            cfg.slippage_pct cfg.commission_pct ∈ (checkSlTp cfg st data t).trades ∧
          alookup (checkSlTp cfg st data t).openTrades sym = none) ∧
      (trade.stop_loss < bar.low → trade.take_profit ≤ bar.high →
        trade.close trade.take_profit t TradeStatus.CLOSED_TP
            cfg.slippage_pct cfg.commission_pct ∈ (checkSlTp cfg st data t).trades ∧
          alookup (checkSlTp cfg st data t).openTrades sym = none)) ∧
    (trade.direction = TradeDirection.SHORT →
      (trade.stop_loss ≤ bar.high →
        trade.close trade.stop_loss t TradeStatus.CLOSED_SL
            cfg.slippage_pct cfg.commission_pct ∈ (checkSlTp cfg st data t).trades ∧
          alookup (checkSlTp cfg st data t).openTrades sym = none) ∧
      (bar.high < trade.stop_loss → bar.low ≤ trade.take_profit →
        trade.close trade.take_profit t TradeStatus.CLOSED_TP
            cfg.slippage_pct cfg.commission_pct ∈ (checkSlTp cfg st data t).trades ∧
          alookup (checkSlTp cfg st data t).openTrades sym = none)) := by
  constructor
  · intro hdir
    constructor
    · intro hsl
      have hdec : slTpDecision trade (alookup data sym) = some TradeStatus.CLOSED_SL := by
        rw [hdf]
        simp [slTpDecision, hbar, hdir, hsl]
      exact checkSlTp_closes cfg st data t sym trade TradeStatus.CLOSED_SL hn hopen hdec
    · intro hsl htp
      have hdec : slTpDecision trade (alookup data sym) = some TradeStatus.CLOSED_TP := by
        rw [hdf]
        simp [slTpDecision, hbar, hdir, not_le.mpr hsl, htp]
      exact checkSlTp_closes cfg st data t sym trade TradeStatus.CLOSED_TP hn hopen hdec
  · intro hdir
    have hdirne : ¬ (trade.direction = TradeDirection.LONG) := by
      rw [hdir]
      intro hh
      cases hh
    constructor
    · intro hsl
      have hdec : slTpDecision trade (alookup data sym) = some TradeStatus.CLOSED_SL := by
        rw [hdf]
        simp [slTpDecision, hbar, hdirne, hsl]
      exact checkSlTp_closes cfg st data t sym trade TradeStatus.CLOSED_SL hn hopen hdec
    · intro hsl htp
      have hdec : slTpDecision trade (alookup data sym) = some TradeStatus.CLOSED_TP := by
        rw [hdf]
        simp [slTpDecision, hbar, hdirne, not_le.mpr hsl, htp]
      exact checkSlTp_closes cfg st data t sym trade TradeStatus.CLOSED_TP hn hopen hdec

/-- Open long trade of the C7 witness scenario. -/
def c7LongTrade : Trade :=
  { symbol := "GBPUSD", direction := TradeDirection.LONG, entry_price := 1,
    entry_time := 0, position_size := 100, stop_loss := 49/50, take_profit := 26/25 }

/-- Bar of the C7 witness scenario, touching both the stop loss and the take
profit. -/
def c7Bar : Bar :=
  { time := 3, op := 1, high := 27/25, low := 24/25, close := 1, volume := 10 }

/-- Engine state of the C7 witness scenario. -/
def c7State : EngineState :=
  { trades := [], openTrades := [("GBPUSD", c7LongTrade)], equity := 10000,
    equityCurve := [10000] }

/-- Market data of the C7 witness scenario. -/
def c7Data : MarketData := [("GBPUSD", ⟨[c7Bar], true⟩)]

/-- Witness for C7: on a bar touching both levels the long trade closes at
the stop loss. -/
theorem checkSlTp_stop_loss_first_witness :
    c7LongTrade.close c7LongTrade.stop_loss 3 TradeStatus.CLOSED_SL
        ({} : BacktestConfig).slippage_pct ({} : BacktestConfig).commission_pct ∈
      (checkSlTp {} c7State c7Data 3).trades ∧
    alookup (checkSlTp {} c7State c7Data 3).openTrades "GBPUSD" = none :=
  ((checkSlTp_stop_loss_first {} c7State c7Data 3 "GBPUSD" c7LongTrade ⟨[c7Bar], true⟩
      c7Bar (by simp [c7State]) rfl rfl rfl).1 rfl).1
    (by norm_num [c7Bar, c7LongTrade])

/-- One SL/TP closing step never touches the equity curve. -/
theorem slTpClose_curve (cfg : BacktestConfig) (t : ℤ) (st : EngineState)
    (d : String × TradeStatus) : (slTpClose cfg t st d).equityCurve = st.equityCurve := by
  unfold slTpClose
  split
  · rfl
  · rfl

/-- `_check_sl_tp` never touches the equity curve. -/
theorem checkSlTp_curve (cfg : BacktestConfig) (st : EngineState) (data : MarketData)
    (t : ℤ) : (checkSlTp cfg st data t).equityCurve = st.equityCurve := by
  unfold checkSlTp
  generalize (st.openTrades.filterMap
    (fun p => (slTpDecision p.2 (alookup data p.1)).map (fun s => (p.1, s)))) = ds
  induction ds generalizing st with
  | nil => rfl
  | cons d tl ih =>
    rw [List.foldl_cons, ih (slTpClose cfg t st d), slTpClose_curve]

/-- `_process_signal` never touches the equity curve. -/
theorem processSignal_curve (cfg : BacktestConfig) (st : EngineState) (symbol : String)
    (dir : Direction) (data : MarketData) (t : ℤ) :
    (processSignal cfg st symbol dir data t).equityCurve = st.equityCurve := by
  unfold processSignal
  split
  · rfl
  · split
    · split
      · split
        · rfl
        · rw [openNewTrade_curve]
      · rfl
    · rw [openNewTrade_curve]

/-- The signal pass of a bar never touches the equity curve. -/
theorem signalsFold_curve (cfg : BacktestConfig) (data : MarketData) (t : ℤ) :
    ∀ (signals : List (String × Option (Direction × Bool))) (st : EngineState),
    ((signals.foldl (fun s p =>
      match p.2 with
      | some (dir, true) => processSignal cfg s p.1 dir data t
      | _ => s) st)).equityCurve = st.equityCurve := by
  intro signals
  induction signals with
  | nil => intro st; rfl
  | cons p tl ih =>
    intro st
    rw [List.foldl_cons, ih]
    rcases p with ⟨sym, info⟩
    match info with
    | none => rfl
    | some (dir, true) => exact processSignal_curve cfg st sym dir data t
    | some (dir, false) => rfl

/-- The equity mark never touches the equity curve. -/
theorem updateEquity_curve (cfg : BacktestConfig) (st : EngineState) (data : MarketData) :
    (updateEquity cfg st data).equityCurve = st.equityCurve := rfl

/-- Each bar of the run loop appends exactly one equity point. -/
theorem runBar_curve (cfg : BacktestConfig) (sig : AnalyzerFun) (data : MarketData)
    (st : EngineState) (t : ℤ) :
    (runBar cfg sig data st t).equityCurve = st.equityCurve ++
      [(runBar cfg sig data st t).equity] := by
  unfold runBar
  dsimp only
  rw [updateEquity_curve, signalsFold_curve, checkSlTp_curve]

/-- Over the whole bar loop the curve grows by one point per timestamp and
keeps its first point. -/
theorem foldl_runBar_curve (cfg : BacktestConfig) (sig : AnalyzerFun) (data : MarketData) :
    ∀ (ts : List ℤ) (st : EngineState),
    ((ts.foldl (runBar cfg sig data) st)).equityCurve.length =
      st.equityCurve.length + ts.length ∧
    (st.equityCurve ≠ [] →
      ((ts.foldl (runBar cfg sig data) st)).equityCurve.head? = st.equityCurve.head?) := by
  intro ts
  induction ts with
  | nil => intro st; exact ⟨rfl, fun _ => rfl⟩
  | cons t tl ih =>
    intro st
    rw [List.foldl_cons]
    refine ⟨?_, ?_⟩
    · rw [(ih (runBar cfg sig data st t)).1, runBar_curve, List.length_append]
      simp [Nat.add_assoc, Nat.add_comm 1 tl.length]
    · intro hne
      have hne2 : (runBar cfg sig data st t).equityCurve ≠ [] := by
        rw [runBar_curve]
        exact List.append_ne_nil_of_left_ne_nil hne _
      rw [(ih (runBar cfg sig data st t)).2 hne2, runBar_curve,
        List.head?_append_of_ne_nil _ hne]

/-- The end-of-run force close never touches the equity curve. -/
theorem closeAllTrades_curve (cfg : BacktestConfig) (data : MarketData) (t : ℤ)
    (st : EngineState) : (closeAllTrades cfg data t st).equityCurve = st.equityCurve := by
  unfold closeAllTrades
  dsimp only
  generalize st.openTrades = l
  induction l generalizing st with
  | nil => rfl
  | cons p tl ih =>
    rw [List.foldl_cons]
    match hb : (alookup data p.1).bind (fun df => df.bars.getLast?) with
    | none => exact ih st
    | some bar => exact ih _

/-- Metric aggregation passes the equity curve through unchanged. -/
theorem computeResults_curve (st : EngineState) :
    (computeResults st).equity_curve = st.equityCurve := by
  unfold computeResults
  split
  · rfl
  · rfl

/-- C10: the equity curve of a backtest run always starts with the
configured initial capital (seeded at reset, before any bar), and over `n`
aligned timestamps it holds exactly `n + 1` points — in particular, on
empty input it is the single point `[initial_capital]`. -/
theorem run_equity_curve_shape (cfg : BacktestConfig) (sig : AnalyzerFun)
    (data : MarketData) :
    (run cfg sig data).equity_curve.length = (alignedTimestamps data).length + 1 ∧
    (run cfg sig data).equity_curve.head? = some cfg.initial_capital := by
  unfold run
  dsimp only
  split
  · next hemp =>
    have hdata : data = [] := by
      cases data
      · rfl
      · cases hemp
    subst hdata
    exact ⟨rfl, rfl⟩
  · split
    · next hts =>
      have : alignedTimestamps data = [] := by
        cases h : alignedTimestamps data
        · rfl
        · rw [h] at hts
          cases hts
      rw [this]
      exact ⟨rfl, rfl⟩
    · have hfold := foldl_runBar_curve cfg sig data (alignedTimestamps data) (resetState cfg)
      match hlast : (alignedTimestamps data).getLast? with
      | none =>
        constructor
        · rw [computeResults_curve, hfold.1]
          simp [resetState, Nat.add_comm]
        · rw [computeResults_curve, hfold.2 (by simp [resetState])]
          rfl
      | some tl =>
        constructor
        · rw [computeResults_curve, closeAllTrades_curve, hfold.1]
          simp [resetState, Nat.add_comm]
        · rw [computeResults_curve, closeAllTrades_curve,
            hfold.2 (by simp [resetState])]
          rfl

/-- Deviation products over a self-zip are squared deviations. -/
theorem zip_self_dev_map (m : ℝ) : ∀ (xs : List ℝ),
    ((xs.zip xs).map (fun q => (q.1 - m) * (q.2 - m))) =
      xs.map (fun x => (x - m) ^ 2) := by
  intro xs
  induction xs with
  | nil => rfl
  | cons x tl ih =>
    rw [List.zip_cons_cons, List.map_cons, List.map_cons, ih, sq]

/-- The self deviation product sum is a sum of squares. -/
theorem demeanDot_self_eq (xs : List ℝ) :
    demeanDot xs xs = (xs.map (fun x => (x - listMeanR xs) ^ 2)).sum := by
  unfold demeanDot
  rw [zip_self_dev_map]

/-- The self deviation product sum is nonnegative. -/
theorem demeanDot_self_nonneg (xs : List ℝ) : 0 ≤ demeanDot xs xs := by
  rw [demeanDot_self_eq]
  refine List.sum_nonneg ?_
  intro y hy
  obtain ⟨x, _, rfl⟩ := List.mem_map.mp hy
  exact sq_nonneg _

/-- The deviation product sum is symmetric in its two series. -/
theorem demeanDot_comm (xs ys : List ℝ) : demeanDot xs ys = demeanDot ys xs := by
  unfold demeanDot
  rw [← List.zip_swap xs ys, List.map_map]
  have h : ((fun q : ℝ × ℝ => (q.1 - listMeanR ys) * (q.2 - listMeanR xs)) ∘ Prod.swap)
      = fun q : ℝ × ℝ => (q.1 - listMeanR xs) * (q.2 - listMeanR ys) := by
    funext q
    simp only [Function.comp_apply, Prod.fst_swap, Prod.snd_swap]
    ring
  rw [h]

/-- Pearson correlation is symmetric. -/
theorem pearson_symm (xs ys : List ℝ) : pearson xs ys = pearson ys xs := by
  unfold pearson
  rw [demeanDot_comm xs ys, mul_comm (demeanDot xs xs)]

/-- Pearson correlation of a series with itself is 1 whenever the series has
nonzero variance. -/
theorem pearson_self (xs : List ℝ) (h : demeanDot xs xs ≠ 0) :
    pearson xs xs = 1 := by
  unfold pearson
  rw [Real.sqrt_mul_self (demeanDot_self_nonneg xs), div_self h]

/-- C6 (amended): every matrix built by `build_correlation_matrix` is
symmetric — `matrix[a][b] = matrix[b][a]` for all retained symbols — and
`matrix[a][a] = 1.0` for every retained symbol whose aligned log-return
series has nonzero variance.  (For a constant-return symbol the diagonal
entry is degenerate: NaN in pandas, 0 under Lean's division-by-zero
convention — in neither semantics is it the unit value the claim asserts
unconditionally.) -/
theorem buildCorrelationMatrix_symm_unit_diag (cfg : CorrelationConfig)
    (priceData : MarketData) (a b : String) (xs ys : List ℝ)
    (ha : alookup (buildCorrelationMatrix cfg priceData) a = some xs)
    (hb : alookup (buildCorrelationMatrix cfg priceData) b = some ys) :
    matrixEntry (buildCorrelationMatrix cfg priceData) a b =
      matrixEntry (buildCorrelationMatrix cfg priceData) b a ∧
    (demeanDot xs xs ≠ 0 →
      matrixEntry (buildCorrelationMatrix cfg priceData) a a = 1) := by
  constructor
  · unfold matrixEntry
    rw [ha, hb]
    exact pearson_symm xs ys
  · intro h
    unfold matrixEntry
    rw [ha]
    exact pearson_self xs h

/-- Correlation configuration of the C6 scenario (3-point minimum). -/
def c6cfg : CorrelationConfig := { lookback_hours := 100, min_data_points := 3 }

/-- Varying-price frame of the C6 scenario. -/
def c6BarsA : List Bar := [⟨0, 1, 1, 1, 1, 1⟩, ⟨1, 2, 2, 2, 2, 1⟩, ⟨2, 1, 1, 1, 1, 1⟩]

/-- Constant-price frame of the C6 scenario: all log-returns are zero. -/
def c6BarsB : List Bar := [⟨0, 5, 5, 5, 5, 1⟩, ⟨1, 5, 5, 5, 5, 1⟩, ⟨2, 5, 5, 5, 5, 1⟩]

/-- Price data of the C6 scenario. -/
def c6Data : MarketData := [("A", ⟨c6BarsA, true⟩), ("B", ⟨c6BarsB, true⟩)]

/-- Evaluation of the built matrix on the C6 scenario: both symbols are
retained with their two aligned log-returns. -/
theorem c6_matrix_eval : buildCorrelationMatrix c6cfg c6Data =
    [("A", [Real.log (((2:ℚ) : ℝ) / ((1:ℚ) : ℝ)), Real.log (((1:ℚ) : ℝ) / ((2:ℚ) : ℝ))]),
     ("B", [Real.log (((5:ℚ) : ℝ) / ((5:ℚ) : ℝ)), Real.log (((5:ℚ) : ℝ) / ((5:ℚ) : ℝ))])] :=
  rfl

/-- The deviation product sum of a two-point constant series vanishes. -/
theorem demeanDot_pair_const (x : ℝ) : demeanDot [x, x] [x, x] = 0 := by
  unfold demeanDot listMeanR
  simp

/-- C6 counterexample: the constant-price symbol "B" is retained by the
selection filters, yet its diagonal entry is not 1.0 (its aligned returns
have zero variance, so the Pearson quotient degenerates). -/
theorem buildCorrelationMatrix_diag_not_one :
    (alookup (buildCorrelationMatrix c6cfg c6Data) "B").isSome = true ∧
    matrixEntry (buildCorrelationMatrix c6cfg c6Data) "B" "B" ≠ 1 := by
  constructor
  · rw [c6_matrix_eval]
    rfl
  · have hB : alookup (buildCorrelationMatrix c6cfg c6Data) "B" =
        some [Real.log (((5:ℚ) : ℝ) / ((5:ℚ) : ℝ)),
              Real.log (((5:ℚ) : ℝ) / ((5:ℚ) : ℝ))] := by
      rw [c6_matrix_eval]
      rfl
    unfold matrixEntry
    rw [hB]
    dsimp only
    unfold pearson
    rw [demeanDot_pair_const]
    norm_num [Real.sqrt_zero]

/-- The deviation product sum of an antisymmetric two-point series. -/
theorem demeanDot_pair_opp (y : ℝ) : demeanDot [y, -y] [y, -y] = 2 * y ^ 2 := by
  unfold demeanDot listMeanR
  simp
  ring

/-- Witness for C6's amended claim: symbol "A" has nonzero return variance,
so its diagonal entry is 1, and the off-diagonal entries are symmetric. -/
theorem buildCorrelationMatrix_symm_unit_diag_witness :
    demeanDot [Real.log (((2:ℚ) : ℝ) / ((1:ℚ) : ℝ)), Real.log (((1:ℚ) : ℝ) / ((2:ℚ) : ℝ))]
        [Real.log (((2:ℚ) : ℝ) / ((1:ℚ) : ℝ)), Real.log (((1:ℚ) : ℝ) / ((2:ℚ) : ℝ))] ≠ 0 ∧
    matrixEntry (buildCorrelationMatrix c6cfg c6Data) "A" "A" = 1 ∧
    matrixEntry (buildCorrelationMatrix c6cfg c6Data) "A" "B" =
      matrixEntry (buildCorrelationMatrix c6cfg c6Data) "B" "A" := by
  have h21 : ((2:ℚ) : ℝ) / ((1:ℚ) : ℝ) = 2 := by norm_num
  have h12 : ((1:ℚ) : ℝ) / ((2:ℚ) : ℝ) = 2⁻¹ := by norm_num
  have hlog : Real.log (((1:ℚ) : ℝ) / ((2:ℚ) : ℝ)) = -Real.log (((2:ℚ) : ℝ) / ((1:ℚ) : ℝ)) := by
    rw [h21, h12, Real.log_inv]
  have hD : demeanDot
      [Real.log (((2:ℚ) : ℝ) / ((1:ℚ) : ℝ)), Real.log (((1:ℚ) : ℝ) / ((2:ℚ) : ℝ))]
      [Real.log (((2:ℚ) : ℝ) / ((1:ℚ) : ℝ)), Real.log (((1:ℚ) : ℝ) / ((2:ℚ) : ℝ))] ≠ 0 := by
    rw [hlog, demeanDot_pair_opp]
    have hpos : 0 < Real.log (((2:ℚ) : ℝ) / ((1:ℚ) : ℝ)) := by
      rw [h21]
      exact Real.log_pos (by norm_num)
    positivity
  have ha : alookup (buildCorrelationMatrix c6cfg c6Data) "A" =
      some [Real.log (((2:ℚ) : ℝ) / ((1:ℚ) : ℝ)),
            Real.log (((1:ℚ) : ℝ) / ((2:ℚ) : ℝ))] := by
    rw [c6_matrix_eval]
    rfl
  have hb : alookup (buildCorrelationMatrix c6cfg c6Data) "B" =
      some [Real.log (((5:ℚ) : ℝ) / ((5:ℚ) : ℝ)),
            Real.log (((5:ℚ) : ℝ) / ((5:ℚ) : ℝ))] := by
    rw [c6_matrix_eval]
    rfl
  have main := buildCorrelationMatrix_symm_unit_diag c6cfg c6Data "A" "B" _ _ ha hb
  exact ⟨hD, main.2 hD, main.1⟩

end ForexSignal
